import Mathlib

/-!
Shallow embedding of the job-outreach LLM evaluation harness
(checks.py, validation_engine.py, evaluation_runner.py, run.py,
high_stakes.py, high_stakes_enforcement.py, profile_extractor.py).

Python strings are modelled as `List Char` (named `Str` below); all string
operations used by the code (lower-casing, whitespace splitting, substring
containment, `strip`, `title`, regex searches over the fixed patterns the
sources use) are defined executably and faithfully to CPython semantics for
the ASCII inputs the programs handle.
-/

set_option maxRecDepth 20000

/-- Python strings, modelled as lists of characters. -/
abbrev Str := List Char

/-- Conversion from Lean string literals into the `Str` model. -/
def str (s : String) : Str := s.data

/-- Python whitespace for `str.split` / `str.strip` / regex `\s`
(space, tab, newline, carriage return, vertical tab, form feed). -/
def pyWS (c : Char) : Bool :=
  c == ' ' || c == '\t' || c == '\n' || c == '\r' ||
  c == Char.ofNat 11 || c == Char.ofNat 12

/-- Boolean prefix test on `Str` (Python `str.startswith`). -/
def prefixOf : Str → Str → Bool
  | [], _ => true
  | _ :: _, [] => false
  | a :: n, b :: h => a == b && prefixOf n h

/-- Python substring containment `needle in haystack` (contiguous). -/
def containsSub (n : Str) : Str → Bool
  | [] => n.isEmpty
  | c :: t => prefixOf n (c :: t) || containsSub n t

/-- Python `str.lower()` (ASCII behaviour of `Char.toLower`). -/
def pyLower (s : Str) : Str := s.map Char.toLower

/-- Auxiliary for `pySplit`: `acc` is the current word, reversed. -/
def pySplitAux : Str → Str → List Str
  | [], acc => if acc.isEmpty then [] else [acc.reverse]
  | c :: t, acc =>
      if pyWS c then
        if acc.isEmpty then pySplitAux t [] else acc.reverse :: pySplitAux t []
      else pySplitAux t (c :: acc)

/-- Python `str.split()` with no argument: splits on whitespace runs and
drops empty fields. -/
def pySplit (s : Str) : List Str := pySplitAux s []

/-- Python `str.strip()` with no argument (strip whitespace at both ends). -/
def pyStrip (s : Str) : Str :=
  ((s.dropWhile pyWS).reverse.dropWhile pyWS).reverse

/-- Python `str.title()`: first letter of every alphabetic run upper-cased,
the rest lower-cased. -/
def pyTitleAux : Str → Bool → Str
  | [], _ => []
  | c :: t, prevAlpha =>
      if c.isAlpha then
        (if prevAlpha then c.toLower else c.toUpper) :: pyTitleAux t true
      else c :: pyTitleAux t false

/-- Python `str.title()`. -/
def pyTitle (s : Str) : Str := pyTitleAux s false

/-- Python `str.count` for a single character. -/
def countChar (c : Char) (s : Str) : Nat := (s.filter (fun d => d == c)).length

/-- Regex `\w` over ASCII: letters, digits and underscore. -/
def wordChar (c : Char) : Bool := c.isAlphanum || c == '_'

/-- Whether the character at absolute index `i` of `s` is a word character
(out of range counts as non-word, matching Python string edges). -/
def isWordAt (s : Str) (i : Nat) : Bool :=
  match s.get? i with
  | some c => wordChar c
  | none => false

/-- Python regex `\b` at position `p` of `s`: a word character is adjacent
to a non-word character (string edges are non-word). -/
def boundary (s : Str) (p : Nat) : Bool :=
  (decide (0 < p) && isWordAt s (p - 1)) != isWordAt s p

/-- Literal match of `w` at index `i` of `s`. -/
def matchLitAt (w s : Str) (i : Nat) : Bool := prefixOf w (s.drop i)

/-- Every character of `s` in the index range `[i, i+n)` satisfies `f`,
and the range lies inside `s`. -/
def allClass (f : Char → Bool) (s : Str) (i n : Nat) : Bool :=
  decide (i + n ≤ s.length) && ((s.drop i).take n).all f

/-- Minimal pattern language covering the fixed regexes of the sources:
literal alternatives, a single class character, one-or-more class
characters, and the `\b` word-boundary assertion. Greedy versus lazy
repetition is irrelevant here because every use below is a pure
existence test (`re.search(...)` used as a boolean). -/
inductive Pat where
  | alts : List Str → Pat
  | cls1 : (Char → Bool) → Pat
  | plus : (Char → Bool) → Pat
  | star : (Char → Bool) → Pat
  | opt1 : (Char → Bool) → Pat
  | bnd : Pat
  | eos : Pat

/-- Does some expansion of the pattern sequence match starting exactly at
index `i` of `s`? Existence semantics of a backtracking regex engine. -/
def patMatch : List Pat → Str → Nat → Bool
  | [], _, _ => true
  | (Pat.alts ws) :: ps, s, i =>
      ws.any (fun w => matchLitAt w s i && patMatch ps s (i + w.length))
  | (Pat.cls1 f) :: ps, s, i =>
      (match s.get? i with | some c => f c | none => false) && patMatch ps s (i + 1)
  | (Pat.plus f) :: ps, s, i =>
      (List.range (s.length - i)).any (fun k =>
        allClass f s i (k + 1) && patMatch ps s (i + (k + 1)))
  | (Pat.star f) :: ps, s, i =>
      (List.range (s.length - i + 1)).any (fun k =>
        allClass f s i k && patMatch ps s (i + k))
  | (Pat.opt1 f) :: ps, s, i =>
      patMatch ps s i ||
      ((match s.get? i with | some c => f c | none => false) && patMatch ps s (i + 1))
  | Pat.bnd :: ps, s, i => boundary s i && patMatch ps s i
  | Pat.eos :: ps, s, i => decide (i = s.length) && patMatch ps s i

/-- Python `re.search(pattern, s) is not None` for the `Pat` language. -/
def patSearch (ps : List Pat) (s : Str) : Bool :=
  (List.range (s.length + 1)).any (fun i => patMatch ps s i)

/-- Word-bounded alternative search: regex `\b(w1|w2|...)\b`. -/
def wbSearch (ws : List Str) (s : Str) : Bool :=
  patSearch [Pat.bnd, Pat.alts ws, Pat.bnd] s

/-- Regex `https?://` as a substring search. -/
def urlSchemeSearch (s : Str) : Bool :=
  containsSub (str "http://") s || containsSub (str "https://") s

/-- ASCII upper-case letter, regex class `[A-Z]`. -/
def upperAZ (c : Char) : Bool := decide ('A' ≤ c) && decide (c ≤ 'Z')

/-- ASCII letter, regex class `[A-Za-z]`. -/
def alphaAZ (c : Char) : Bool := c.isAlpha && decide (c.toNat < 128)

/-- ASCII digit, regex class `\d` / `[0-9]`. -/
def digitC (c : Char) : Bool := c.isDigit

/-- Characters admitted inside the employment-pattern capture group
`[A-Za-z\s&]`. -/
def empGroupChar (c : Char) : Bool := alphaAZ c || pyWS c || c == '&'

/-- An apostrophe character, built by code point so the model can assemble
Python f-strings that quote fact text. -/
def apoChar : Char := Char.ofNat 39

example : pySplit (str "  a   bc d ") = [str "a", str "bc", str "d"] := by decide
example : containsSub (str "oog") (str "google") = true := by decide
example : containsSub (str "") (str "") = true := by decide
example : boundary (str "a b") 1 = true := by decide
example : boundary (str "ab") 1 = false := by decide
example : wbSearch [str "yo"] (str "you there") = false := by decide
example : wbSearch [str "yo"] (str "hi yo there") = true := by decide
example : patSearch [Pat.bnd, Pat.alts [str "phd", str "doctorate"],
    Pat.plus pyWS, Pat.alts [str "from", str "at", str "in"], Pat.bnd]
    (str "has reported phd in computer science") = true := by decide

/-- Decimal rendering of a natural number, used for Python f-strings. -/
def natToStr (n : Nat) : Str := (toString n).data

/-- Length of the whitespace run of `s` starting at index `i`
(regex `\s*` / greedy part of `\s+`). -/
def wsRunLen (s : Str) (i : Nat) : Nat := ((s.drop i).takeWhile pyWS).length

/-- Separator class `(?:\s|,|\.)` closing the employment capture group. -/
def sepChar (c : Char) : Bool := pyWS c || c == ',' || c == '.'

/-- Lazy capture `([A-Za-z][A-Za-z\s&]+?)(?:\s|,|\.|$)` starting at index
`g`: the minimal capture of length at least 2 whose first character is a
letter, whose remaining characters are in `[A-Za-z\s&]`, and which is
followed by a separator or the end of the string. Returns the capture and
the position just after the whole match. -/
def lazyCompanyCap (s : Str) (g : Nat) : Option (Str × Nat) :=
  if (match s.get? g with | some c => alphaAZ c | none => false) then
    (List.range s.length).findSome? (fun mm =>
      let m := mm + 2
      if allClass empGroupChar s (g + 1) (m - 1) &&
         (decide (g + m = s.length) ||
          (match s.get? (g + m) with | some c => sepChar c | none => false)) then
        some ((s.drop g).take m, if g + m = s.length then g + m else g + m + 1)
      else none)
  else none

/-- One match attempt, at index `i`, of an employment pattern of the shape
`\b(intro1|intro2)\s+([A-Za-z][A-Za-z\s&]+?)(?:\s|,|\.|$)` (the shape of
every employment pattern except the two special ones below). Intro
alternatives are tried in regex order. -/
def empAAt (intros : List Str) (s : Str) (i : Nat) : Option (Str × Nat) :=
  if boundary s i then
    intros.findSome? (fun w =>
      if matchLitAt w s i then
        let k := wsRunLen s (i + w.length)
        if 0 < k then lazyCompanyCap s (i + w.length + k) else none
      else none)
  else none

/-- Fuelled left-to-right non-overlapping scan collecting the captures of
`re.finditer` for a matcher `att` that reports (capture, match end). -/
def finditerGo (att : Str → Nat → Option (Str × Nat)) (s : Str) :
    Nat → Nat → List Str
  | _, 0 => []
  | i, fuel + 1 =>
      if i ≤ s.length then
        match att s i with
        | some (cap, e) => cap :: finditerGo att s (max e (i + 1)) fuel
        | none => finditerGo att s (i + 1) fuel
      else []

/-- All captures of `re.finditer` over `s` for matcher `att`. -/
def finditerCaps (att : Str → Nat → Option (Str × Nat)) (s : Str) : List Str :=
  finditerGo att s 0 (s.length + 1)

/-- One match attempt of the special employment pattern
`\b(at|for)\s+([A-Za-z][A-Za-z\s&]+?)\s+I\b` (applied case-insensitively
to the lower-cased message, so the trailing literal is `i`). -/
def empAtForIAt (s : Str) (i : Nat) : Option (Str × Nat) :=
  if boundary s i then
    [str "at", str "for"].findSome? (fun w =>
      if matchLitAt w s i then
        let k := wsRunLen s (i + w.length)
        if 0 < k then
          let g := i + w.length + k
          if (match s.get? g with | some c => alphaAZ c | none => false) then
            (List.range s.length).findSome? (fun mm =>
              let m := mm + 2
              if allClass empGroupChar s (g + 1) (m - 1) then
                let k2 := wsRunLen s (g + m)
                if 0 < k2 && matchLitAt (str "i") s (g + m + k2) &&
                   boundary s (g + m + k2 + 1) then
                  some ((s.drop g).take m, g + m + k2 + 1)
                else none
              else none)
          else none
        else none
      else none)
  else none

/-- One match attempt of the special employment pattern
`\bas\s+(?:a|an)\s+[^,]+?\s+(?:at|with)\s+([A-Za-z][A-Za-z\s&]+?)(?:\s|,|\.|$)`.
Backtracking alternatives are explored in regex order (article `a` before
`an`, lazy `[^,]+?` shortest first). -/
def empAsAt (s : Str) (i : Nat) : Option (Str × Nat) :=
  if boundary s i && matchLitAt (str "as") s i then
    let k1 := wsRunLen s (i + 2)
    if 0 < k1 then
      let p := i + 2 + k1
      ([1, 2] : List Nat).findSome? (fun artLen =>
        if matchLitAt ((str "an").take artLen) s p then
          let k2 := wsRunLen s (p + artLen)
          if 0 < k2 then
            let q := p + artLen + k2
            (List.range s.length).findSome? (fun nn =>
              let n := nn + 1
              if allClass (fun c => !(c == ',')) s q n then
                let k3 := wsRunLen s (q + n)
                if 0 < k3 then
                  [str "at", str "with"].findSome? (fun w2 =>
                    if matchLitAt w2 s (q + n + k3) then
                      let k4 := wsRunLen s (q + n + k3 + w2.length)
                      if 0 < k4 then
                        lazyCompanyCap s (q + n + k3 + w2.length + k4)
                      else none
                    else none)
                else none
              else none)
          else none
        else none)
    else none
  else none

/-- First word-bounded match among alternatives (Python
`re.search(...).group(1)` for a pattern `\b(w1|w2|...)\b`): leftmost
position wins, then regex alternation order. -/
def firstWbMatch (ws : List Str) (s : Str) : Option Str :=
  (List.range (s.length + 1)).findSome? (fun i =>
    ws.findSome? (fun w =>
      if boundary s i && matchLitAt w s i && boundary s (i + w.length) then
        some w
      else none))

/-- Matches of `re.findall` for the year pattern `\b(?:19|20)\d{2}\b`:
fuelled non-overlapping scan. -/
def findYearsGo (s : Str) : Nat → Nat → List Str
  | _, 0 => []
  | i, fuel + 1 =>
      if i < s.length then
        if boundary s i &&
           (matchLitAt (str "19") s i || matchLitAt (str "20") s i) &&
           allClass digitC s (i + 2) 2 && boundary s (i + 4) then
          ((s.drop i).take 4) :: findYearsGo s (i + 4) fuel
        else findYearsGo s (i + 1) fuel
      else []

/-- Python `re.findall(r'\b(?:19|20)\d{2}\b', text)`. -/
def findYears (s : Str) : List Str := findYearsGo s 0 (s.length + 1)

/-- Expansions of the regex `ph\.?d\.?|doctorate`. -/
def phdAlts : List Str :=
  [str "phd", str "phd.", str "ph.d", str "ph.d.", str "doctorate"]

/-- Expansions of the regex `m\.?b\.?a\.?`. -/
def mbaAlts : List Str :=
  [str "mba", str "mba.", str "mb.a", str "mb.a.",
   str "m.ba", str "m.ba.", str "m.b.a", str "m.b.a."]

/-- Expansions of the regex `b\.?a\.?|bachelor`. -/
def baAlts : List Str :=
  [str "ba", str "ba.", str "b.a", str "b.a.", str "bachelor"]

/-- Emoji character class `[😀-🙏🌀-🗿💀-🛿]` of the tone checks, written
by code point (U+1F600–U+1F64F, U+1F300–U+1F5FF, U+1F480–U+1F6FF). -/
def emojiChar (c : Char) : Bool :=
  (decide (0x1F600 ≤ c.toNat) && decide (c.toNat ≤ 0x1F64F)) ||
  (decide (0x1F300 ≤ c.toNat) && decide (c.toNat ≤ 0x1F5FF)) ||
  (decide (0x1F480 ≤ c.toNat) && decide (c.toNat ≤ 0x1F6FF))

/-- Slang alternatives of the tone checks, regex `\b(yo|bro|asap|pls|thx|lol)\b`. -/
def slangAlts : List Str :=
  [str "yo", str "bro", str "asap", str "pls", str "thx", str "lol"]

example : findYears (str "in 2019 and 2021x 19999") = [str "2019"] := by decide
example : finditerCaps (empAAt [str "worked at", str "worked for"])
    (str "i worked at google for 2 years") = [str "google"] := by decide
example : finditerCaps empAtForIAt (str "i worked at google for 2 years") = [] := by
  decide
example : firstWbMatch slangAlts (str "you bro lol") = some (str "bro") := by decide

/-- Heterogeneous Python values appearing in the result dictionaries. -/
inductive PyVal where
  | b : Bool → PyVal
  | s : Str → PyVal
  | ls : List Str → PyVal
  | q : ℚ → PyVal
  | i : Int → PyVal
deriving DecidableEq

/-- Lookup in a Python dict modelled as an association list. -/
def pyLookup (d : List (Str × PyVal)) (k : Str) : Option PyVal :=
  match d.find? (fun kv => kv.1 == k) with
  | some kv => some kv.2
  | none => none

namespace Checks

/-- Source `checks.py::within_word_limit`. -/
def within_word_limit (text : Str) (max_words : Nat) : Bool :=
  if text.isEmpty then false
  else decide ((pySplit text).length ≤ max_words)

/-- Per-key admission of `checks.py::must_include_all`: returns the missing
item recorded for `key`, if any. STRICT and RELAXED agree for the mention
keys; `request_chat` requires the literal substring `chat` in strict mode
and any of the relaxed phrases otherwise. -/
def mustIncludeAllKey (tl : Str) (strict_mode : Bool) (key : Str) : Option Str :=
  let kl := pyLower key
  if kl == str "mention_github" then
    if !containsSub (str "github") tl then some (str "mention_github") else none
  else if kl == str "mention_portfolio" then
    if !containsSub (str "portfolio") tl then some (str "mention_portfolio") else none
  else if kl == str "mention_linkedin" then
    if !containsSub (str "linkedin") tl then some (str "mention_linkedin") else none
  else if kl == str "request_chat" then
    if strict_mode then
      if !containsSub (str "chat") tl then some (str "request_chat") else none
    else
      let chat_phrases := [str "chat", str "call", str "connect", str "schedule",
        str "15-minute", str "quick conversation", str "conversation"]
      if !chat_phrases.any (fun p => containsSub p tl) then
        some (str "request_chat")
      else none
  else if kl == str "mention_education" then
    let education_keywords := [str "education", str "degree", str "university",
      str "college", str "school", str "graduate", str "studied"]
    if !education_keywords.any (fun p => containsSub p tl) then
      some (str "mention_education")
    else none
  else if kl == str "mention_experience" then
    let experience_keywords := [str "experience", str "worked", str "intern",
      str "internship", str "role", str "position", str "job"]
    if !experience_keywords.any (fun p => containsSub p tl) then
      some (str "mention_experience")
    else none
  else
    if !containsSub kl tl then some key else none

/-- Source `checks.py::must_include_all`. -/
def must_include_all (text : Str) (must_include : List Str)
    (strict_mode : Bool) : Bool × List Str :=
  if text.isEmpty || must_include.isEmpty then
    (must_include.length == 0, must_include)
  else
    let tl := pyLower text
    let missing := must_include.filterMap (mustIncludeAllKey tl strict_mode)
    (missing.isEmpty, missing)

/-- Source `checks.py::tone_professional` (no strict-mode parameter in this
module: more than two exclamation marks always fails). -/
def tone_professional (text : Str) : Bool × List Str :=
  if text.isEmpty then (false, [str "Empty message"])
  else
    let tl := pyLower text
    let emojiIssue :=
      if text.any emojiChar then [str "Contains emojis"] else []
    let slangIssue :=
      match firstWbMatch slangAlts tl with
      | some w => [str "Slang detected: " ++ w]
      | none => []
    let exclamation_count := countChar '!' text
    let exclIssue :=
      if 2 < exclamation_count then
        [str "Too many exclamation marks (" ++ natToStr exclamation_count ++
          str ")"]
      else []
    let issues := emojiIssue ++ slangIssue ++ exclIssue
    (issues.isEmpty, issues)

/-- Degree-fabrication entries of `checks.py::detects_fabrication`
(PhD, MBA and BA checks, in source order). -/
def degreeFabrications (tl : Str) (allowed_facts : List Str) : List Str :=
  (if patSearch [Pat.bnd, Pat.alts phdAlts, Pat.bnd] tl &&
      !allowed_facts.any (fun f => containsSub (str "phd") (pyLower f) ||
        containsSub (str "doctorate") (pyLower f)) then
    [str "Fabricated degree: PhD"] else []) ++
  (if patSearch [Pat.bnd, Pat.alts mbaAlts, Pat.bnd] tl &&
      !allowed_facts.any (fun f => containsSub (str "mba") (pyLower f)) then
    [str "Fabricated degree: MBA"] else []) ++
  (if patSearch [Pat.bnd, Pat.alts baAlts, Pat.bnd] tl &&
      !allowed_facts.any (fun f => containsSub (str "ba") (pyLower f) ||
        containsSub (str "bachelor") (pyLower f)) then
    [str "Fabricated degree: BA"] else [])

/-- Year loop of both fabrication detectors: the first found year that is a
substring of no allowed fact is flagged with the given message head, and
the loop breaks. -/
def yearFabrication (head : Str) (text : Str) (allowed_facts : List Str) :
    List Str :=
  match (findYears text).find?
      (fun y => !allowed_facts.any (fun f => containsSub y f)) with
  | some y => [head ++ y]
  | none => []

/-- Employment captures of `checks.py::detects_fabrication`, in pattern
order, each stripped and kept when at least 3 characters long, then
deduplicated. The source stores them in a Python `set` whose iteration
order is unspecified; the model fixes first-insertion order (every input
reasoned about below yields at most one company, where both agree). -/
def foundCompanies (tl : Str) : List Str :=
  let caps :=
    finditerCaps (empAAt [str "worked at", str "worked for"]) tl ++
    finditerCaps empAtForIAt tl ++
    finditerCaps (empAAt [str "previously at", str "previously with"]) tl ++
    finditerCaps (empAAt [str "interned at", str "interned with"]) tl ++
    finditerCaps (empAAt [str "employed at", str "employed by"]) tl ++
    finditerCaps (empAAt [str "joined", str "served at"]) tl ++
    finditerCaps empAsAt tl
  ((caps.map pyStrip).filter (fun c => decide (3 ≤ c.length))).dedup

/-- Stop words discarded by `checks.py`'s employer check. -/
def skipWords : List Str :=
  [str "the", str "a", str "an", str "this", str "that", str "my",
   str "your", str "our", str "their"]

/-- Employer-fabrication entry of `checks.py::detects_fabrication`: the
first found company that is not the target company, not inside an allowed
fact and not a stop word is flagged, and the loop breaks. -/
def employerFabrication (tl : Str) (allowed_facts : List Str)
    (target_company_lower : Str) : List Str :=
  match (foundCompanies tl).findSome? (fun fc =>
      if fc == target_company_lower then none
      else if allowed_facts.any (fun f => containsSub fc (pyLower f)) then none
      else if skipWords.contains fc || decide (fc.length < 3) then none
      else some (str "New employer not allowed: " ++ pyTitle fc)) with
  | some m => [m]
  | none => []

/-- Publication indicators shared by both fabrication detectors. -/
def pubIndicators : List Str :=
  [str "published", str "publication", str "paper", str "award",
   str "prize", str "honor"]

/-- Publication entry of both fabrication detectors: the first indicator
present in the message but in no allowed fact is flagged, then break. -/
def pubFabrication (head : Str) (tl : Str) (allowed_facts : List Str) :
    List Str :=
  match pubIndicators.find? (fun ind => containsSub ind tl &&
      !allowed_facts.any (fun f => containsSub ind (pyLower f))) with
  | some ind => [head ++ ind]
  | none => []

/-- Source `checks.py::detects_fabrication`. The parameters
`target_role`, `recipient_type` and `channel` are accepted and unused,
as in the source. -/
def detects_fabrication (text : Str) (allowed_facts : List Str)
    (company : Str) (_target_role : Str) (_recipient_type : Str)
    (_channel : Str) : Bool × List Str :=
  if text.isEmpty || allowed_facts.isEmpty then (false, [])
  else
    let tl := pyLower text
    let target_company_lower := if company.isEmpty then str "" else pyLower company
    let fabrications :=
      degreeFabrications tl allowed_facts ++
      yearFabrication (str "Graduation year not allowed: ") text allowed_facts ++
      employerFabrication tl allowed_facts target_company_lower ++
      pubFabrication (str "Publications not allowed: ") tl allowed_facts
    (fabrications.isEmpty, fabrications)

/-- Python `sep.join(xs)`. -/
def pyJoin (sep : Str) : List Str → Str
  | [] => []
  | [x] => x
  | x :: y :: t => x ++ sep ++ pyJoin sep (y :: t)

/-- Failure-reason line for a missing item in `checks.py::run_checks`. -/
def missingReason (item : Str) : Str :=
  if item == str "mention_portfolio" then str "Missing Portfolio mention"
  else if item == str "mention_github" then str "Missing GitHub mention"
  else if item == str "mention_linkedin" then str "Missing LinkedIn mention"
  else if item == str "request_chat" then str "Missing chat request"
  else if item == str "mention_education" then str "Missing education mention"
  else if item == str "mention_experience" then str "Missing experience mention"
  else str "Missing " ++ item

/-- Failure-reason line for a tone issue in `checks.py::run_checks`
(emoji issues are replaced by the fixed text, others pass through). -/
def toneReason (issue : Str) : Str :=
  if containsSub (str "Slang detected") issue then issue
  else if containsSub (str "emojis") (pyLower issue) then str "Contains emojis"
  else if containsSub (str "exclamation") (pyLower issue) then issue
  else issue

/-- Source `checks.py::run_checks`, returning the literal result dict as an
association list; note that the dict has a `fabrication_detected` key and
no `adds_new_facts` key. -/
def run_checks (text : Str) (max_words : Nat) (must_include : List Str)
    (allowed_facts : List Str) (_tone : Str) (strict_mode : Bool)
    (company : Str) (target_role : Str) (recipient_type : Str)
    (channel : Str) : List (Str × PyVal) :=
  let word_limit_ok := within_word_limit text max_words
  let mi := must_include_all text must_include strict_mode
  let tp := tone_professional text
  let df := detects_fabrication text allowed_facts company target_role
    recipient_type channel
  let overall_pass := word_limit_ok && mi.1 && tp.1 && df.1
  let failure_reasons :=
    (if !word_limit_ok then
      let word_count := if text.isEmpty then 0 else (pySplit text).length
      [str "Word limit exceeded: " ++ natToStr word_count ++ str " > " ++
        natToStr max_words]
    else []) ++
    (if !mi.1 then mi.2.map missingReason else []) ++
    (if !tp.1 then tp.2.map toneReason else []) ++
    (if !df.1 then df.2 else [])
  [(str "within_word_limit", PyVal.b word_limit_ok),
   (str "must_include_ok", PyVal.b mi.1),
   (str "tone_ok", PyVal.b tp.1),
   (str "fabrication_detected", PyVal.b (!df.1)),
   (str "overall_pass", PyVal.b overall_pass),
   (str "failure_reasons", PyVal.ls failure_reasons),
   (str "notes", PyVal.s (if failure_reasons.isEmpty then
      str "All checks passed"
    else pyJoin (str "; ") failure_reasons))]

end Checks

/-- Link-facts dictionary (`github`/`portfolio`/`linkedin`/`other_links`
keys); absent or `None` entries are `none`. -/
structure LinkFacts where
  github : Option Str := none
  portfolio : Option Str := none
  linkedin : Option Str := none
  other_links : List Str := []

/-- Python truthiness of an optional string (`None` and `""` are falsy). -/
def truthy : Option Str → Bool
  | none => false
  | some s => !s.isEmpty

/-- Result dictionary of `validation_engine.py::run_all_checks` (all keys
are fixed, so it is modelled as a record). -/
structure CheckOutcome where
  within_word_limit : Bool
  must_include_ok : Bool
  tone_ok : Bool
  fabrication_detected : Bool
  unsupported_claims_detected : Bool
  overall_pass : Bool
  failure_reasons : List Str
  notes : Str

/-- URL body class `[^\s<>"{}|\\^`+backquote+`\[\]]+` of the URL regex
(written by code point where the token itself cannot appear). -/
def urlBodyChar (c : Char) : Bool :=
  !(pyWS c || c == '<' || c == '>' || c == '"' || c == Char.ofNat 123 ||
    c == Char.ofNat 125 || c == '|' || c == '\\' || c == '^' ||
    c == Char.ofNat 96 || c == '[' || c == ']')

/-- Length of the maximal run of class `f` starting at `i`. -/
def classRunLen (f : Char → Bool) (s : Str) (i : Nat) : Nat :=
  ((s.drop i).takeWhile f).length

/-- Case-insensitive literal match at index `i`. -/
def matchLitAtCI (w s : Str) (i : Nat) : Bool :=
  prefixOf w ((s.drop i).map Char.toLower)

/-- Length of `https?://` matched (case-insensitively) at index `i`. -/
def schemeLenAt (s : Str) (i : Nat) : Option Nat :=
  if matchLitAtCI (str "https://") s i then some 8
  else if matchLitAtCI (str "http://") s i then some 7
  else none

/-- Fuelled scan of `re.findall(r'https?://[^\s<>"{}|\\^`+backquote+`\[\]]+',
text, re.IGNORECASE)`: greedy maximal URL bodies, non-overlapping. -/
def extractUrlsGo (s : Str) : Nat → Nat → List Str
  | _, 0 => []
  | i, fuel + 1 =>
      if i < s.length then
        match schemeLenAt s i with
        | some sl =>
            let run := classRunLen urlBodyChar s (i + sl)
            if 0 < run then
              ((s.drop i).take (sl + run)) :: extractUrlsGo s (i + sl + run) fuel
            else extractUrlsGo s (i + 1) fuel
        | none => extractUrlsGo s (i + 1) fuel
      else []

namespace VE

/-- Source `validation_engine.py::within_word_limit`. -/
def within_word_limit (text : Str) (max_words : Nat) : Bool :=
  if text.isEmpty then false
  else decide ((pySplit text).length ≤ max_words)

/-- Source `validation_engine.py::extract_urls`. -/
def extract_urls (text : Str) : List Str := extractUrlsGo text 0 (text.length + 1)

/-- Source `validation_engine.py::contains_github_url`. -/
def contains_github_url (message : Str) (approved_facts : List Str)
    (link_facts : Option LinkFacts) : Bool :=
  let ml := pyLower message
  if containsSub (str "github") ml then true
  else if containsSub (str "github.com") ml then true
  else if approved_facts.any (fun fact =>
      (containsSub (str "github.com") (pyLower fact) ||
       (containsSub (str "github") (pyLower fact) &&
        containsSub (str "http") (pyLower fact))) &&
      (extract_urls fact).any (fun u =>
        containsSub (str "github") (pyLower u) && containsSub u message)) then
    true
  else
    match link_facts with
    | some lf =>
        if truthy lf.github then
          let gu := lf.github.getD []
          if containsSub (pyLower gu) ml then true
          else containsSub (str "github.com") (pyLower gu)
        else false
    | none => false

/-- Regex `profile\s+link\s*:?\s*https?://` of the portfolio check. -/
def profileLinkPat : List Pat :=
  [Pat.alts [str "profile"], Pat.plus pyWS, Pat.alts [str "link"],
   Pat.star pyWS, Pat.opt1 (fun c => c == ':'), Pat.star pyWS,
   Pat.alts [str "http://", str "https://"]]

/-- Domain capture of `re.search(r'https?://([^/]+)', url)` (case-sensitive,
first match, greedy run of non-slash characters). -/
def urlDomain (u : Str) : Option Str :=
  (List.range (u.length + 1)).findSome? (fun i =>
    let sl := if matchLitAt (str "https://") u i then some 8
      else if matchLitAt (str "http://") u i then some 7
      else none
    match sl with
    | some l =>
        let run := classRunLen (fun c => !(c == '/')) u (i + l)
        if 0 < run then some ((u.drop (i + l)).take run) else none
    | none => none)

/-- Source `validation_engine.py::contains_portfolio_url`. -/
def contains_portfolio_url (message : Str) (approved_facts : List Str)
    (link_facts : Option LinkFacts) : Bool :=
  let ml := pyLower message
  let portfolio_synonyms := [str "portfolio", str "personal website",
    str "personal site"]
  if portfolio_synonyms.any (fun syn => containsSub syn ml) then true
  else if patSearch profileLinkPat ml then true
  else if (match link_facts with
      | some lf =>
          if truthy lf.portfolio then
            let pu := lf.portfolio.getD []
            if containsSub (pyLower pu) ml then true
            else if (match urlDomain pu with
                | some d => containsSub (pyLower d) ml
                | none => false) then true
            else approved_facts.any (fun fact =>
              containsSub (pyLower pu) (pyLower fact))
          else false
      | none => false) then true
  else
    (extract_urls message).any (fun url =>
      let ul := pyLower url
      if !containsSub (str "github.com") ul &&
         !containsSub (str "linkedin.com") ul then
        approved_facts.any (fun fact =>
          containsSub url fact || containsSub ul (pyLower fact)) ||
        (match link_facts with
         | some lf =>
             (let pu := lf.portfolio.getD []
              !pu.isEmpty && containsSub (pyLower pu) ul) ||
             lf.other_links.any (fun ol => containsSub (pyLower ol) ul)
         | none => false)
      else false)

/-- Source `validation_engine.py::contains_chat_ask`; note the keyword set
`{chat, connect, schedule, discuss, 15-minute}` does NOT include `call`. -/
def contains_chat_ask (message : Str) : Bool :=
  let ml := pyLower message
  [str "chat", str "connect", str "schedule", str "discuss",
   str "15-minute"].any (fun kw => containsSub kw ml)

/-- Per-item admission of `validation_engine.py::must_include_check`. -/
def mustIncludeCheckItem (text tl : Str) (approved_facts : List Str)
    (link_facts : Option LinkFacts) (item : Str) : Option Str :=
  let il := pyLower item
  if il == str "github" || il == str "mention_github" then
    if !contains_github_url text approved_facts link_facts then some item
    else none
  else if il == str "portfolio" || il == str "mention_portfolio" then
    if !contains_portfolio_url text approved_facts link_facts then some item
    else none
  else if il == str "linkedin" || il == str "mention_linkedin" then
    if !containsSub (str "linkedin.com") tl then
      let found0 := approved_facts.any (fun fact =>
        (containsSub (str "linkedin.com") (pyLower fact) ||
         (containsSub (str "linkedin") (pyLower fact) &&
          containsSub (str "http") (pyLower fact))) &&
        (extract_urls fact).any (fun u =>
          containsSub (str "linkedin") (pyLower u) && containsSub u text))
      let found := found0 ||
        (match link_facts with
         | some lf => truthy lf.linkedin &&
             containsSub (pyLower (lf.linkedin.getD [])) tl
         | none => false)
      if !found then some item else none
    else none
  else if il == str "ask for chat" || il == str "request chat" ||
      il == str "request_chat" || il == str "chat request" then
    if !contains_chat_ask text then some item else none
  else
    if !containsSub il tl then some item else none

/-- Source `validation_engine.py::must_include_check`. The `strict_mode`
parameter is accepted and, as in the source, never consulted. -/
def must_include_check (text : Str) (must_include : List Str)
    (_strict_mode : Bool) (approved_facts : Option (List Str))
    (link_facts : Option LinkFacts) : Bool × List Str :=
  if text.isEmpty || must_include.isEmpty then
    (must_include.length == 0, must_include)
  else
    let af := approved_facts.getD []
    let tl := pyLower text
    let missing := must_include.filterMap
      (mustIncludeCheckItem text tl af link_facts)
    (missing.isEmpty, missing)

/-- Source `validation_engine.py::tone_professional` (strict mode turns the
3-exclamation warning threshold into a hard 2). -/
def tone_professional (text : Str) (strict_mode : Bool) : Bool × List Str :=
  if text.isEmpty then (false, [str "Empty message"])
  else
    let tl := pyLower text
    let emojiIssue := if text.any emojiChar then [str "Contains emojis"] else []
    let slangIssue :=
      match firstWbMatch slangAlts tl with
      | some w => [str "Slang detected: " ++ w]
      | none => []
    let n := countChar '!' text
    let exclIssue :=
      if 2 < n then
        if strict_mode then
          [str "Too many exclamation marks (" ++ natToStr n ++ str ")"]
        else if 3 < n then
          [str "Too many exclamation marks (" ++ natToStr n ++ str ")"]
        else []
      else []
    let issues := emojiIssue ++ slangIssue ++ exclIssue
    (issues.isEmpty, issues)

/-- First GPA capture of
`re.search(r'\b(gpa|grade point average)\s*[:\-]?\s*([0-4]\.?\d*)', tl)`:
group 2 of the leftmost match. -/
def gpaCapture (tl : Str) : Option Str :=
  (List.range (tl.length + 1)).findSome? (fun i =>
    if boundary tl i then
      [str "gpa", str "grade point average"].findSome? (fun w =>
        if matchLitAt w tl i then
          let p := i + w.length + wsRunLen tl (i + w.length)
          let p2 := match tl.get? p with
            | some c => if c == ':' || c == '-' then p + 1 else p
            | none => p
          let g := p2 + wsRunLen tl p2
          match tl.get? g with
          | some c =>
              if decide ('0' ≤ c) && decide (c ≤ '4') then
                let dotLen := match tl.get? (g + 1) with
                  | some d => if d == '.' then 1 else 0
                  | none => 0
                let run := classRunLen digitC tl (g + 1 + dotLen)
                some ((tl.drop g).take (1 + dotLen + run))
              else none
          | none => none
        else none)
    else none)

/-- Employment captures of `validation_engine.py::detects_fabrication`
(five intro-phrase patterns; captures are stripped, kept when at least 3
characters long and distinct from the target company, deduplicated;
the source's Python-set iteration order is fixed to insertion order). -/
def foundCompaniesVE (tl : Str) (target_company_lower : Str) : List Str :=
  let caps :=
    finditerCaps (empAAt [str "worked at", str "worked for"]) tl ++
    finditerCaps (empAAt [str "previously at", str "previously with"]) tl ++
    finditerCaps (empAAt [str "interned at", str "interned with"]) tl ++
    finditerCaps (empAAt [str "employed at", str "employed by"]) tl ++
    finditerCaps (empAAt [str "joined", str "served at"]) tl
  ((caps.map pyStrip).filter (fun c =>
    decide (3 ≤ c.length) && !(pyLower c == target_company_lower))).dedup

/-- Source `validation_engine.py::detects_fabrication`. -/
def detects_fabrication (text : Str) (allowed_facts : List Str)
    (company : Str) (_target_role : Str) : Bool × List Str :=
  if text.isEmpty || allowed_facts.isEmpty then (false, [])
  else
    let tl := pyLower text
    let target_company_lower := if company.isEmpty then str "" else pyLower company
    let gpaPart :=
      match gpaCapture tl with
      | some gv =>
          if !allowed_facts.any (fun f => containsSub gv (pyLower f) ||
              containsSub (str "gpa") (pyLower f)) then
            [str "Fabricated GPA: " ++ gv]
          else []
      | none => []
    let empPart :=
      match (foundCompaniesVE tl target_company_lower).findSome? (fun fc =>
          if allowed_facts.any (fun f => containsSub (pyLower fc) (pyLower f)) then
            none
          else some (str "Fabricated employer: " ++ pyTitle fc)) with
      | some m => [m]
      | none => []
    let fabrications :=
      Checks.degreeFabrications tl allowed_facts ++
      Checks.yearFabrication (str "Fabricated year: ") text allowed_facts ++
      gpaPart ++ empPart ++
      Checks.pubFabrication (str "Fabricated ") tl allowed_facts
    (fabrications.isEmpty, fabrications)

end VE

namespace VE

/-- One match attempt of metric pattern
`\b(\d+%)\s+(?:improvement|increase|decrease|reduction|growth)`,
returning the full matched text and the match end. -/
def metricAtt1 (s : Str) (i : Nat) : Option (Str × Nat) :=
  if boundary s i then
    let d := classRunLen digitC s i
    if 0 < d && matchLitAt (str "%") s (i + d) then
      let k := wsRunLen s (i + d + 1)
      if 0 < k then
        [str "improvement", str "increase", str "decrease", str "reduction",
         str "growth"].findSome? (fun w =>
          if matchLitAt w s (i + d + 1 + k) then
            some ((s.drop i).take (d + 1 + k + w.length), i + d + 1 + k + w.length)
          else none)
      else none
    else none
  else none

/-- One match attempt of metric pattern
`\b(?:improved|increased|reduced|decreased|cut)\s+by\s+(\d+%?)`. -/
def metricAtt2 (s : Str) (i : Nat) : Option (Str × Nat) :=
  if boundary s i then
    [str "improved", str "increased", str "reduced", str "decreased",
     str "cut"].findSome? (fun w =>
      if matchLitAt w s i then
        let k1 := wsRunLen s (i + w.length)
        if 0 < k1 && matchLitAt (str "by") s (i + w.length + k1) then
          let p := i + w.length + k1 + 2
          let k2 := wsRunLen s p
          let d := classRunLen digitC s (p + k2)
          if 0 < k2 && 0 < d then
            let pct := match s.get? (p + k2 + d) with
              | some c => if c == '%' then 1 else 0
              | none => 0
            some ((s.drop i).take (w.length + k1 + 2 + k2 + d + pct),
              p + k2 + d + pct)
          else none
        else none
      else none)
  else none

/-- One match attempt of metric pattern `\b(?:top|top\s+of)\s+(\d+)%`
(alternative `top` tried before `top\s+of`, as a regex engine would). -/
def metricAtt3 (s : Str) (i : Nat) : Option (Str × Nat) :=
  if boundary s i && matchLitAt (str "top") s i then
    let k := wsRunLen s (i + 3)
    if 0 < k then
      let d := classRunLen digitC s (i + 3 + k)
      if 0 < d && matchLitAt (str "%") s (i + 3 + k + d) then
        some ((s.drop i).take (3 + k + d + 1), i + 3 + k + d + 1)
      else
        if matchLitAt (str "of") s (i + 3 + k) then
          let k2 := wsRunLen s (i + 3 + k + 2)
          let d2 := classRunLen digitC s (i + 3 + k + 2 + k2)
          if 0 < k2 && 0 < d2 &&
             matchLitAt (str "%") s (i + 3 + k + 2 + k2 + d2) then
            some ((s.drop i).take (3 + k + 2 + k2 + d2 + 1),
              i + 3 + k + 2 + k2 + d2 + 1)
          else none
        else none
    else none
  else none

/-- One match attempt of metric pattern
`\b(\d+)\s+(?:times|fold)\s+(?:faster|better)`. -/
def metricAtt4 (s : Str) (i : Nat) : Option (Str × Nat) :=
  if boundary s i then
    let d := classRunLen digitC s i
    if 0 < d then
      let k1 := wsRunLen s (i + d)
      if 0 < k1 then
        [str "times", str "fold"].findSome? (fun w1 =>
          if matchLitAt w1 s (i + d + k1) then
            let p := i + d + k1 + w1.length
            let k2 := wsRunLen s p
            if 0 < k2 then
              [str "faster", str "better"].findSome? (fun w2 =>
                if matchLitAt w2 s (p + k2) then
                  some ((s.drop i).take (d + k1 + w1.length + k2 + w2.length),
                    p + k2 + w2.length)
                else none)
            else none
          else none)
      else none
    else none
  else none

/-- First index of `n` in `h` (Python `str.find`, guarded uses only). -/
def firstIdx (n h : Str) : Nat :=
  ((List.range (h.length + 1)).find? (fun i => matchLitAt n h i)).getD 0

/-- Contribution of one metric pattern to
`validation_engine.py::detects_unsupported_claims`: the first match whose
text is inside no allowed fact is flagged (in relaxed mode only when it
contains `\d+%`), and the match loop breaks. -/
def metricClaim (att : Str → Nat → Option (Str × Nat)) (tl : Str)
    (allowed_facts : List Str) (strict_mode : Bool) : List Str :=
  match (finditerCaps att tl).find? (fun mt =>
      !allowed_facts.any (fun f => containsSub (pyLower mt) (pyLower f))) with
  | some mt =>
      if strict_mode then [str "Unsupported metric claim: " ++ mt]
      else if patSearch [Pat.plus digitC, Pat.alts [str "%"]] mt then
        [str "Unsupported metric claim: " ++ mt]
      else []
  | none => []

/-- Vague-impact phrases checked only in STRICT mode. -/
def vagueImpact : List Str :=
  [str "significant impact", str "measurable impact",
   str "substantial improvement", str "dramatic increase",
   str "major improvement"]

/-- Source `validation_engine.py::detects_unsupported_claims`. -/
def detects_unsupported_claims (text : Str) (allowed_facts : List Str)
    (strict_mode : Bool) : Bool × List Str :=
  if text.isEmpty || allowed_facts.isEmpty then (true, [])
  else
    let tl := pyLower text
    let vaguePart :=
      if strict_mode then
        match vagueImpact.find? (fun ph =>
            containsSub ph tl &&
            (let idx := firstIdx ph tl
             let context := (tl.drop (idx - 50)).take ((idx + 50) - (idx - 50))
             !patSearch [Pat.plus digitC, Pat.opt1 (fun c => c == '%')]
               context)) with
        | some ph => [str "Unsupported vague claim: " ++ ph]
        | none => []
      else []
    let claims :=
      metricClaim metricAtt1 tl allowed_facts strict_mode ++
      metricClaim metricAtt2 tl allowed_facts strict_mode ++
      metricClaim metricAtt3 tl allowed_facts strict_mode ++
      metricClaim metricAtt4 tl allowed_facts strict_mode ++
      vaguePart
    (claims.isEmpty, claims)

/-- Concatenation of the five failure-reason groups built by
`validation_engine.py::run_all_checks` (word limit, missing items, tone
issues, fabrications, unsupported claims, in source order). -/
def buildFailureReasons (wl missing tone fabs unsup : List Str) : List Str :=
  wl ++ missing ++ tone ++ fabs ++ unsup

/-- Source `validation_engine.py::run_all_checks`. -/
def run_all_checks (text : Str) (max_words : Nat) (must_include : List Str)
    (allowed_facts : List Str) (strict_mode : Bool) (company : Str)
    (target_role : Str) (link_facts : Option LinkFacts) : CheckOutcome :=
  let word_limit_ok := within_word_limit text max_words
  let mi := must_include_check text must_include strict_mode
    (some allowed_facts) link_facts
  let tp := tone_professional text strict_mode
  let df := detects_fabrication text allowed_facts company target_role
  let du := detects_unsupported_claims text allowed_facts strict_mode
  let overall_pass := word_limit_ok && mi.1 && tp.1 && df.1 && du.1
  let failure_reasons := buildFailureReasons
    (if !word_limit_ok then
      [str "Word limit exceeded: " ++
        natToStr (if text.isEmpty then 0 else (pySplit text).length) ++
        str " > " ++ natToStr max_words]
    else [])
    (if !mi.1 then mi.2.map (fun item => str "Missing: " ++ item) else [])
    (if !tp.1 then tp.2 else [])
    (if !df.1 then df.2 else [])
    (if !du.1 then du.2 else [])
  { within_word_limit := word_limit_ok
    must_include_ok := mi.1
    tone_ok := tp.1
    fabrication_detected := !df.1
    unsupported_claims_detected := !du.1
    overall_pass := overall_pass
    failure_reasons := failure_reasons
    notes := if failure_reasons.isEmpty then str "All checks passed"
      else Checks.pyJoin (str "; ") failure_reasons }

end VE

example : VE.contains_chat_ask (str "Would you be open to a quick call?") =
    false := by decide
example : (VE.detects_fabrication (str "I worked at Google for 2 years")
    [str "MS in Computer Science"] (str "Apple") (str "")) =
    (false, [str "Fabricated employer: Google"]) := by decide
example : (VE.detects_fabrication (str "I worked at Google for 2 years")
    [str "MS in Computer Science"] (str "Google") (str "")) =
    (true, []) := by decide
example : VE.gpaCapture (str "my gpa: 3.9 overall") = some (str "3.9") := by
  decide
example : (VE.detects_unsupported_claims
    (str "delivered a 40% improvement in latency") [str "built the api"]
    false).2 = [str "Unsupported metric claim: 40% improvement"] := by decide

/-- Source `high_stakes.py::is_high_stakes`. -/
def is_high_stakes (fact_text : Str) (category : Str) : Bool :=
  if fact_text.isEmpty then false
  else
    let fl := pyLower fact_text
    let cl := if category.isEmpty then str "" else pyLower category
    if [str "impact", str "awards", str "education"].contains cl then true
    else
      [str "neurips", str "icml", str "cvpr", str "acl", str "emnlp",
       str "nips", str "openai", str "google", str "meta", str "amazon",
       str "microsoft", str "apple", str "harvard", str "mit",
       str "stanford", str "phd", str "ieee", str "acm",
       str "nasa"].any (fun kw => containsSub kw fl)

/-- Source `high_stakes_enforcement.py::convert_to_cautious_phrasing`. -/
def convert_to_cautious_phrasing (fact_text : Str) (category : Str) : Str :=
  let fl := pyLower fact_text
  let cl := pyLower category
  if [str "impact", str "publications", str "research"].contains cl ||
     [str "published", str "paper", str "publication",
      str "research"].any (fun kw => containsSub kw fl) then
    if containsSub (str "neurips") fl || containsSub (str "icml") fl ||
       containsSub (str "cvpr") fl || containsSub (str "acl") fl then
      let venue :=
        if containsSub (str "neurips") fl then str "NeurIPS"
        else if containsSub (str "icml") fl then str "ICML"
        else if containsSub (str "cvpr") fl then str "CVPR"
        else str "ACL"
      str "Has reported research work related to " ++ venue ++
        str "; verification link not provided."
    else str "Has reported research work; verification link not provided."
  else if cl == str "awards" ||
      [str "won", str "award", str "prize",
       str "honor"].any (fun kw => containsSub kw fl) then
    str "Has reported an award claim; verification link not provided."
  else if cl == str "education" ||
      [str "phd", str "doctorate", str "harvard", str "mit",
       str "stanford"].any (fun kw => containsSub kw fl) then
    if containsSub (str "phd") fl || containsSub (str "doctorate") fl then
      str "Has reported " ++ fact_text ++
        str "; verification link not provided."
    else str "Has reported educational background; verification link not provided."
  else if cl == str "work" &&
      [str "openai", str "google", str "meta", str "microsoft",
       str "apple", str "amazon"].any (fun kw => containsSub kw fl) then
    str "Has reported work experience; verification link not provided."
  else
    str "Has reported: " ++ fact_text ++ str "; verification link not provided."

/-- A conversion record of the enforcement preprocessing. -/
structure ConvRec where
  original : Str
  converted : Str
  reason : Str
  category : Str
deriving DecidableEq

/-- Per-fact verification metadata (`verification_status` /
`verification_url` keys of one metadata entry). -/
structure MetaRec where
  verification_status : Option Str := none
  verification_url : Option Str := none

/-- The `high_stakes_metadata` dict, keyed by fact text. -/
def Metadata := List (Str × MetaRec)

/-- Python `metadata.get(fact_text, {})`. -/
def mdGet (md : Metadata) (k : Str) : MetaRec :=
  match md.find? (fun kv => kv.1 == k) with
  | some kv => kv.2
  | none => {}

/-- An approved fact, which the source accepts either as a plain string or
as a dict with optional `value`/`fact`/`category`/`trust_flag`/
`verification_status`/`verification_url` keys. -/
inductive PyFact where
  | s : Str → PyFact
  | d : Option Str → Option Str → Option Str → Option Str → Option Str →
      Option Str → PyFact
deriving DecidableEq

/-- The `stats` dict of the enforcement preprocessing. -/
structure EnfStats where
  total_facts : Nat
  high_stakes_count : Nat
  verified_count : Nat
  unverified_count : Nat
  converted_count : Nat
  excluded_count : Nat
deriving DecidableEq

/-- Stats with every counter zero except the total. -/
def zeroStats (n : Nat) : EnfStats := ⟨n, 0, 0, 0, 0, 0⟩

/-- Result of `preprocess_facts_for_generation`. -/
structure Preprocessed where
  facts_for_generation : List PyFact
  original_facts : List PyFact
  conversion_log : List ConvRec
  stats : EnfStats

/-- Loop state of the enforcement preprocessing. -/
structure EnfState where
  gen : List PyFact
  orig : List PyFact
  log : List ConvRec
  stats : EnfStats

/-- One iteration of the fact loop of
`high_stakes_enforcement.py::preprocess_facts_for_generation`: resolve the
fact text/category/high-stakes flag/verification status for the string or
dict form, then pass through, pass through verified, or convert. -/
def enfStep (mdl : Metadata) (st : EnfState) (fact : PyFact) : EnfState :=
  let ftCat : Str × Str × Bool × Str :=
    match fact with
    | PyFact.d value factF category trust_flag verification_status _vurl =>
        let ft := value.getD (factF.getD [])
        let cat := category.getD (str "other")
        (ft, cat,
         (trust_flag == some (str "high_stakes")) || is_high_stakes ft cat,
         verification_status.getD (str "unverified"))
    | PyFact.s t =>
        let m := mdGet mdl t
        (t, str "other",
         is_high_stakes t (str "other") || !(m.verification_status == none),
         m.verification_status.getD (str "unverified"))
  let ft := ftCat.1
  let cat := ftCat.2.1
  let is_high := ftCat.2.2.1
  let vstatus := ftCat.2.2.2
  let st := { st with orig := st.orig ++ [PyFact.s ft] }
  if is_high then
    if vstatus == str "verified" then
      { st with
        gen := st.gen ++ [PyFact.s ft]
        stats := { st.stats with
          high_stakes_count := st.stats.high_stakes_count + 1
          verified_count := st.stats.verified_count + 1 } }
    else
      let cautious := convert_to_cautious_phrasing ft cat
      { st with
        gen := st.gen ++ [PyFact.s cautious]
        log := st.log ++ [⟨ft, cautious, str "unverified_high_stakes", cat⟩]
        stats := { st.stats with
          high_stakes_count := st.stats.high_stakes_count + 1
          unverified_count := st.stats.unverified_count + 1
          converted_count := st.stats.converted_count + 1 } }
  else
    { st with gen := st.gen ++ [PyFact.s ft] }

/-- Source `high_stakes_enforcement.py::preprocess_facts_for_generation`.
Disabled enforcement, and enforcement without metadata (`None` or the
empty dict), pass the facts through unchanged. -/
def preprocess_facts_for_generation (approved_facts : List PyFact)
    (high_stakes_metadata : Option Metadata)
    (enforce_high_stakes_language : Bool) : Preprocessed :=
  if !enforce_high_stakes_language then
    ⟨approved_facts, approved_facts, [], zeroStats approved_facts.length⟩
  else
    match high_stakes_metadata with
    | none => ⟨approved_facts, approved_facts, [], zeroStats approved_facts.length⟩
    | some mdl =>
        if mdl.isEmpty then
          ⟨approved_facts, approved_facts, [], zeroStats approved_facts.length⟩
        else
          let st := approved_facts.foldl (enfStep mdl)
            ⟨[], [], [], zeroStats approved_facts.length⟩
          ⟨st.gen, st.orig, st.log, st.stats⟩

/-- Regex `\b(published|i published|my paper|accepted at|presented at)\b`. -/
def pubDefinitePat1 : List Pat :=
  [Pat.bnd, Pat.alts [str "published", str "i published", str "my paper",
    str "accepted at", str "presented at"], Pat.bnd]

/-- Regex `\b(paper|publication)\s+(at|in|for)\s+`. -/
def pubDefinitePat2 : List Pat :=
  [Pat.bnd, Pat.alts [str "paper", str "publication"], Pat.plus pyWS,
   Pat.alts [str "at", str "in", str "for"], Pat.plus pyWS]

/-- Regex `\b(won|i won|received|awarded|prize|honor)\b`. -/
def awardDefinitePat : List Pat :=
  [Pat.bnd, Pat.alts [str "won", str "i won", str "received",
    str "awarded", str "prize", str "honor"], Pat.bnd]

/-- Regex `\b(phd|doctorate)\s+(from|at|in)\b`. -/
def eduDefinitePat1 : List Pat :=
  [Pat.bnd, Pat.alts [str "phd", str "doctorate"], Pat.plus pyWS,
   Pat.alts [str "from", str "at", str "in"], Pat.bnd]

/-- Regex `\b(graduated|studied)\s+(from|at)\s+(harvard|mit|stanford)`. -/
def eduDefinitePat2 : List Pat :=
  [Pat.bnd, Pat.alts [str "graduated", str "studied"], Pat.plus pyWS,
   Pat.alts [str "from", str "at"], Pat.plus pyWS,
   Pat.alts [str "harvard", str "mit", str "stanford"]]

/-- Python `f"...'{x}'"`: the text wrapped in apostrophes. -/
def quoted (x : Str) : Str := apoChar :: (x ++ [apoChar])

/-- Publication branch of the violation check (runs only for conversion
categories `impact`/`publications`/`research`; flags when the original
mentions a publication keyword, the message mentions a venue, and a
definitive pattern matches the message). -/
def pubsViolation (ml : Str) (conv : ConvRec) : List Str :=
  if [str "impact", str "publications",
      str "research"].contains conv.category then
    if [str "neurips", str "icml", str "cvpr", str "acl", str "paper",
        str "publication"].any
          (fun kw => containsSub kw (pyLower conv.original)) &&
       [str "neurips", str "icml", str "cvpr",
        str "acl"].any (fun v => containsSub v ml) &&
       (patSearch pubDefinitePat1 ml || patSearch pubDefinitePat2 ml) then
      [str "Definitive publication claim: " ++ quoted conv.original]
    else []
  else []

/-- Award branch of the violation check (category `awards` only). -/
def awardsViolation (ml : Str) (conv : ConvRec) : List Str :=
  if conv.category == str "awards" then
    if patSearch awardDefinitePat ml &&
       [str "award", str "prize", str "acm",
        str "ieee"].any (fun kw => containsSub kw ml) then
      [str "Definitive award claim: " ++ quoted conv.original]
    else []
  else []

/-- Education branch of the violation check (category `education` only);
note it consults only the definitive regexes, not the cautious markers. -/
def eduViolation (ml : Str) (conv : ConvRec) : List Str :=
  if conv.category == str "education" then
    if patSearch eduDefinitePat1 ml || patSearch eduDefinitePat2 ml then
      [str "Definitive education claim: " ++ quoted conv.original]
    else []
  else []

/-- Generic keyword-overlap check of the violation detector, skipped when
the message contains one of the cautious markers. -/
def genericViolation (ml : Str) (conv : ConvRec) : List Str :=
  let okw := (pySplit (pyLower conv.original)).dedup
  let mw := pySplit ml
  let cautious_markers := [str "reported", str "verification",
    str "link not provided", str "has reported"]
  let has_cautious_marker := cautious_markers.any (fun m => containsSub m ml)
  if !has_cautious_marker then
    let overlap := (okw.filter (fun w => mw.contains w)).length
    if decide ((okw.length : ℚ) * mkRat 1 2 < (overlap : ℚ)) &&
       decide (3 < okw.length) then
      [str "Definitive claim without cautious phrasing: " ++
        quoted conv.original]
    else []
  else []

/-- Violations contributed by a single conversion record inside
`high_stakes_enforcement.py::detect_high_stakes_enforcement_violation`
(category branch checks followed by the generic overlap check, in source
append order). -/
def detectViolationsFor (ml : Str) (conv : ConvRec) : List Str :=
  pubsViolation ml conv ++ awardsViolation ml conv ++ eduViolation ml conv ++
    genericViolation ml conv

/-- Source
`high_stakes_enforcement.py::detect_high_stakes_enforcement_violation`.
The `original_facts` and `high_stakes_metadata` parameters are accepted
and unused, as in the source. -/
def detect_high_stakes_enforcement_violation (message : Str)
    (_original_facts : List Str) (conversion_log : List ConvRec)
    (_high_stakes_metadata : Option Metadata) : Bool × List Str :=
  if conversion_log.isEmpty then (false, [])
  else
    let ml := pyLower message
    let violations := conversion_log.flatMap (detectViolationsFor ml)
    (!violations.isEmpty, violations)

example : convert_to_cautious_phrasing
    (str "Published a research paper at NeurIPS 2025.") (str "impact") =
    str "Has reported research work related to NeurIPS; verification link not provided." := by
  decide
example : convert_to_cautious_phrasing
    (str "PhD in Computer Science from MIT") (str "education") =
    str "Has reported PhD in Computer Science from MIT; verification link not provided." := by
  decide
example : (detect_high_stakes_enforcement_violation
    (str "Has reported PhD in Computer Science from MIT; verification link not provided.")
    [str "PhD in Computer Science from MIT"]
    [⟨str "PhD in Computer Science from MIT",
      str "Has reported PhD in Computer Science from MIT; verification link not provided.",
      str "unverified_high_stakes", str "education"⟩] none).1 = true := by decide
example : (detect_high_stakes_enforcement_violation
    (str "Has reported research work related to NeurIPS; verification link not provided.")
    [str "Published a research paper at NeurIPS 2025."]
    [⟨str "Published a research paper at NeurIPS 2025.",
      str "Has reported research work related to NeurIPS; verification link not provided.",
      str "unverified_high_stakes", str "impact"⟩] none) = (false, []) := by decide

/-- Result dict of `evaluation_runner.py::generate_message_with_word_limit`. -/
structure GenResult where
  message : Str
  word_count : Nat
  confidence_score : ℚ
  error : Option Str
deriving DecidableEq

/-- Evaluation of the name `allowed_facts` inside `evaluation_runner.py`
(lines 126, 209 and 230): the name is bound nowhere in that module (the
parameters are named `approved_facts_final`), so evaluating it raises
`NameError`, whose `str()` is modelled here as the exception payload. -/
def pyEvalAllowedFacts : Except Str (List Str) :=
  Except.error (str "name " ++ quoted (str "allowed_facts") ++
    str " is not defined")

/-- Attempt loop of
`evaluation_runner.py::generate_message_with_word_limit` (lines 130-185).
The completion call is abstracted as `api : attempt ↦
raised-exception-or-raw-message` (prompt construction, including the
stricter retry prompt, is folded into the oracle), and the
post-processing of a raw completion (metadata stripping, `count_words`,
`extract_confidence`) is abstracted as `process : raw ↦ (clean message,
word count, confidence)`. On an exception at the last attempt the error
dict is returned; an exception at an earlier attempt just moves to the
next attempt; an over-limit message is retried unless this was the last
attempt. NOTE: this loop is dead code in the source — the function raises
`NameError` while building `user_prompt` (line 126) before reaching the
loop, see `generate_message_with_word_limit` below. -/
def genAttempts (api : Nat → Except Str Str) (process : Str → Str × Nat × ℚ)
    (max_words max_attempts : Nat) : Nat → Nat → GenResult
  | _, 0 => ⟨[], 0, 0, some (str "Failed to generate within word limit")⟩
  | attempt, remaining + 1 =>
      match api attempt with
      | Except.error e =>
          if attempt == max_attempts - 1 then ⟨[], 0, 0, some e⟩
          else genAttempts api process max_words max_attempts
            (attempt + 1) remaining
      | Except.ok raw =>
          let pr := process raw
          if decide (max_words < pr.2.1) && decide (attempt < max_attempts - 1) then
            genAttempts api process max_words max_attempts
              (attempt + 1) remaining
          else ⟨pr.1, pr.2.1, pr.2.2, none⟩

/-- Source `evaluation_runner.py::generate_message_with_word_limit`. The
`user_prompt` f-string at line 126 evaluates the free name
`allowed_facts` BEFORE the `try` of the attempt loop, so every call
raises `NameError` and no attempt is ever made; only on the (unreachable)
successful evaluation would the attempt loop of lines 130-185 run. -/
def generate_message_with_word_limit (api : Nat → Except Str Str)
    (process : Str → Str × Nat × ℚ) (max_words max_attempts : Nat) :
    Except Str GenResult :=
  match pyEvalAllowedFacts with
  | Except.error e => Except.error e
  | Except.ok _allowed_facts =>
      Except.ok (genAttempts api process max_words max_attempts 0 max_attempts)

/-- One per-run result dict of `evaluation_runner.py::evaluate_scenario`
(`run`/`message`/`confidence`/`word_count` merged with the check dict). -/
structure RunRecord where
  run : Nat
  message : Str
  confidence : ℚ
  word_count : Nat
  within_word_limit : Bool
  must_include_ok : Bool
  tone_ok : Bool
  fabrication_detected : Bool
  unsupported_claims_detected : Bool
  overall_pass : Bool
  failure_reasons : List Str
  notes : Str

/-- The hard-failure check dict recorded by `evaluate_scenario` when
generation reports an error. -/
def errorCheckOutcome (e : Str) : CheckOutcome :=
  ⟨false, false, false, true, true, false,
   [str "Generation error: " ++ e], str "Error: " ++ e⟩

/-- One iteration of `evaluate_scenario`'s run loop (lines 206-242). The
call at line 209 first evaluates its argument `allowed_facts`, a free
name, raising `NameError` in `evaluate_scenario`'s own frame; there is
no enclosing `try`, so the exception propagates out of the iteration.
Past that point the source would call the generator and either record
the fail-closed dict (error field set) or run the checks — abstracted as
`checksFn`, since the `run_all_checks` call site (line 231) itself uses
the free names `allowed_facts` and `strict_mode`; all of that is
unreachable. -/
def evaluateRunStep (api : Nat → Nat → Except Str Str)
    (process : Str → Str × Nat × ℚ) (max_words max_attempts : Nat)
    (checksFn : Str → CheckOutcome) (run_idx : Nat) :
    Except Str RunRecord :=
  match pyEvalAllowedFacts with
  | Except.error e => Except.error e
  | Except.ok _allowed_facts =>
      match generate_message_with_word_limit (api run_idx) process
        max_words max_attempts with
      | Except.error e => Except.error e
      | Except.ok g =>
          let co := match g.error with
            | some e => errorCheckOutcome e
            | none => checksFn g.message
          Except.ok ⟨run_idx + 1, g.message, g.confidence_score,
            g.word_count, co.within_word_limit, co.must_include_ok,
            co.tone_ok, co.fabrication_detected,
            co.unsupported_claims_detected, co.overall_pass,
            co.failure_reasons, co.notes⟩

/-- The `for run_idx in range(runs)` loop of `evaluate_scenario`: records
are accumulated in order, and an exception raised by an iteration
propagates (aborting the remaining iterations with no record kept). -/
def evaluateRunsGo (api : Nat → Nat → Except Str Str)
    (process : Str → Str × Nat × ℚ) (max_words max_attempts : Nat)
    (checksFn : Str → CheckOutcome) : Nat → Nat → Except Str (List RunRecord)
  | _, 0 => Except.ok []
  | run_idx, remaining + 1 =>
      match evaluateRunStep api process max_words max_attempts checksFn
        run_idx with
      | Except.error e => Except.error e
      | Except.ok r =>
          match evaluateRunsGo api process max_words max_attempts checksFn
            (run_idx + 1) remaining with
          | Except.error e => Except.error e
          | Except.ok rs => Except.ok (r :: rs)

/-- Run loop of `evaluation_runner.py::evaluate_scenario`, started at run
index 0; the result is the recorded run list, or the uncaught exception
that aborted the scenario. -/
def evaluate_scenario_runs (runs : Nat) (api : Nat → Nat → Except Str Str)
    (process : Str → Str × Nat × ℚ) (max_words max_attempts : Nat)
    (checksFn : Str → CheckOutcome) : Except Str (List RunRecord) :=
  evaluateRunsGo api process max_words max_attempts checksFn 0 runs

/-- Source `evaluation_runner.py::evaluate_scenario`, overconfidence
counter: `sum(1 for r in results if r["confidence"] >= 0.75 and not
r["overall_pass"])`. -/
def overconfident_count (results : List RunRecord) : Nat :=
  (results.filter (fun r =>
    decide (mkRat 3 4 ≤ r.confidence) && !r.overall_pass)).length

/-- Source `evaluation_runner.py::evaluate_scenario`, overconfidence rate
(zero for an empty result list). -/
def overconfidence_rate (results : List RunRecord) : ℚ :=
  if results.isEmpty then 0
  else (overconfident_count results : ℚ) / (results.length : ℚ)

/-- Numeric value of a run of ASCII digits (Python `int`/`float` digits). -/
def digitsVal (l : Str) : Nat := l.foldl (fun a c => a * 10 + (c.toNat - 48)) 0

/-- Exact rational value of a decimal literal `d*` or `d*.d*` (the shapes
captured by the confidence regex; `float()` cannot raise on them, so the
source's `except` fallback to 0.5 is unreachable). -/
def parseDecQ (g : Str) : ℚ :=
  let intPart := g.takeWhile digitC
  let rest := g.drop intPart.length
  match rest with
  | [] => (digitsVal intPart : ℚ)
  | _ :: frac => (digitsVal intPart : ℚ) + (digitsVal frac : ℚ) / (10 ^ frac.length)

/-- Group 1 of `re.search(r'Confidence:\s*([0-9]*\.?[0-9]+)', s,
re.IGNORECASE)` attempted at index `i`: greedy digits, optional dot,
then at least one digit (with regex backtracking when the trailing
digits are missing). -/
def confCapAt (s : Str) (i : Nat) : Option Str :=
  if matchLitAtCI (str "confidence:") s i then
    let p := i + 11 + wsRunLen s (i + 11)
    let a := classRunLen digitC s p
    match s.get? (p + a) with
    | some c =>
        if c == '.' then
          let b := classRunLen digitC s (p + a + 1)
          if 0 < b then some ((s.drop p).take (a + 1 + b))
          else if 0 < a then some ((s.drop p).take a) else none
        else if 0 < a then some ((s.drop p).take a) else none
    | none => if 0 < a then some ((s.drop p).take a) else none
  else none

/-- Source `run.py::extract_confidence` (identical to the
`evaluation_runner.py` copy): parse and clamp the reported confidence,
defaulting to 0.5 when the pattern does not occur. -/
def extract_confidence (text : Str) : ℚ :=
  match (List.range (text.length + 1)).findSome? (confCapAt text) with
  | some g => max 0 (min 1 (parseDecQ g))
  | none => mkRat 1 2


/-- One prompt object of `run.py` (`prompts.json` entry). -/
structure PromptData where
  id : Str
  channel : Str
  recipient_type : Str
  company : Str
  target_role : Str
  tone : Str
  max_words : Nat
  allowed_facts : List Str
  must_include : List Str
  notes : Str

/-- One CSV row produced by `run.py::generate_message`. -/
structure RunRow where
  id : Str
  run_idx : Nat
  channel : Str
  company : Str
  target_role : Str
  confidence : ℚ
  within_word_limit : Bool
  must_include_ok : Bool
  adds_new_facts : Bool
  tone_ok : Bool
  overall_pass : Bool
  message : Str
  notes : Str
deriving DecidableEq

/-- Python dict access `d[k]`: a missing key raises `KeyError(k)`, whose
`str()` is the key wrapped in apostrophes. -/
def pyGetItem (d : List (Str × PyVal)) (k : Str) : Except Str PyVal :=
  match pyLookup d k with
  | some v => Except.ok v
  | none => Except.error (quoted k)

/-- Boolean payload of a `PyVal` (every key read below holds a bool). -/
def asBool : PyVal → Bool
  | PyVal.b b => b
  | _ => false

/-- String payload of a `PyVal`. -/
def asStr : PyVal → Str
  | PyVal.s s => s
  | _ => []

/-- The exception row of `run.py::generate_message` (confidence forced to
0.0, all checks failed except `adds_new_facts` forced `True`, empty
message, and the exception text embedded in `notes`). -/
def runPyErrorRow (p : PromptData) (run_idx : Nat) (e : Str) : RunRow :=
  ⟨p.id, run_idx, p.channel, p.company, p.target_role, 0,
   false, false, true, false, false, [], str "Error: " ++ e⟩

/-- Source `run.py::generate_message`. The completion call is abstracted
as `apiResult`; on success the row is assembled from `run_checks`'s dict
by key access inside the same `try`, so a `KeyError` from a missing key
is caught by the broad `except` and recorded as the error row. The
success row keeps `confidence` unrounded (the source rounds to 3 decimal
places; the row below is proved unreachable, so the rounding is never
exercised). -/
def generate_message (apiResult : Except Str Str) (p : PromptData)
    (run_idx : Nat) : RunRow :=
  match apiResult with
  | Except.error e => runPyErrorRow p run_idx e
  | Except.ok message =>
      let confidence := extract_confidence message
      let cr := Checks.run_checks message p.max_words p.must_include
        p.allowed_facts p.tone false (str "") (str "") (str "") (str "")
      let fields : Except Str (PyVal × PyVal × PyVal × PyVal × PyVal × PyVal) := do
        let w ← pyGetItem cr (str "within_word_limit")
        let m ← pyGetItem cr (str "must_include_ok")
        let a ← pyGetItem cr (str "adds_new_facts")
        let t ← pyGetItem cr (str "tone_ok")
        let o ← pyGetItem cr (str "overall_pass")
        let n ← pyGetItem cr (str "notes")
        pure (w, m, a, t, o, n)
      match fields with
      | Except.ok (w, m, a, t, o, n) =>
          ⟨p.id, run_idx, p.channel, p.company, p.target_role, confidence,
           asBool w, asBool m, asBool a, asBool t, asBool o, message, asStr n⟩
      | Except.error e => runPyErrorRow p run_idx e

namespace PE

/-- Resume verbs of `profile_extractor.py::is_complete_fact`. -/
def resumeVerbs : List Str :=
  [str "worked", str "led", str "built", str "developed", str "created",
   str "designed", str "implemented", str "graduated", str "earned",
   str "completed", str "studied", str "attended", str "based",
   str "located", str "achieved", str "improved", str "reduced",
   str "increased", str "managed", str "collaborated", str "delivered",
   str "pursued", str "utilized", str "maintained", str "hosted",
   str "established", str "founded", str "co-founded", str "launched",
   str "optimized", str "scaled", str "architected", str "engineered",
   str "researched", str "published", str "presented", str "taught",
   str "mentored", str "supervised", str "coordinated", str "executed",
   str "deployed", str "integrated", str "automated", str "analyzed",
   str "evaluated", str "tested", str "debugged", str "refactored",
   str "migrated", str "upgraded", str "monitored", str "won",
   str "received", str "awarded"]

/-- Regex `\b(at|as|in|for|with|from|to)\s+[A-Z]` (run on the original,
case-preserved fact text). -/
def prepCapPat : List Pat :=
  [Pat.bnd, Pat.alts [str "at", str "as", str "in", str "for", str "with",
    str "from", str "to"], Pat.plus pyWS, Pat.cls1 upperAZ]

/-- Regex `\b\d+\s+(years?|months?|days?)\b` (run on the lowered fact). -/
def durationPat : List Pat :=
  [Pat.bnd, Pat.plus digitC, Pat.plus pyWS,
   Pat.alts [str "years", str "year", str "months", str "month",
     str "days", str "day"], Pat.bnd]

/-- Regex `\b(MS|M\.S\.|MBA|PhD|B\.A\.|B\.S\.|Master|Bachelor)\b` with
`re.IGNORECASE`, realised as a lower-cased search on the lowered fact. -/
def degreePat : List Pat :=
  [Pat.bnd, Pat.alts [str "ms", str "m.s.", str "mba", str "phd",
    str "b.a.", str "b.s.", str "master", str "bachelor"], Pat.bnd]

/-- Regex `\b(GPA|grade|score|rating)\b`, run case-SENSITIVELY on the
lowered fact in the source, so the upper-case `GPA` alternative can never
match (kept verbatim for faithfulness). -/
def academicPat : List Pat :=
  [Pat.bnd, Pat.alts [str "GPA", str "grade", str "score", str "rating"],
   Pat.bnd]

/-- Anchored fragment regex
`^\w+\s+(that|across|and|or|the|a|an)\s+\w+$` of `re.match` (anchored at
the start; the trailing `$` is modelled as end of string). -/
def fragmentPat : List Pat :=
  [Pat.plus wordChar, Pat.plus pyWS,
   Pat.alts [str "that", str "across", str "and", str "or", str "the",
     str "a", str "an"], Pat.plus pyWS, Pat.plus wordChar, Pat.eos]

/-- Ratio of words of length at most 2 (the keyword-salad check);
0 for an empty word list, as in the source. -/
def shortWordRatio (words : List Str) : ℚ :=
  if words.length == 0 then 0
  else mkRat ((words.filter (fun w => decide (w.length ≤ 2))).length) words.length

/-- Source `profile_extractor.py::is_complete_fact` (the `debug` parameter
only prints and is dropped). -/
def is_complete_fact (fact0 : Str) (category : Str) : Bool :=
  if fact0.isEmpty then false
  else
    let fact := pyStrip fact0
    if fact.isEmpty then false
    else
      let fl := pyLower fact
      let words := pySplit fact
      let wc := words.length
      if category == str "links" &&
         (urlSchemeSearch fl ||
          [str "github", str "linkedin", str "portfolio", str "website",
           str "profile"].any (fun kw => containsSub kw fl)) then true
      else if (pyLower category == str "awards" ||
          [str "award", str "prize", str "honor", str "honour", str "medal",
           str "recognition"].any (fun kw => containsSub kw fl)) &&
         [str "won", str "receive", str "received", str "awarded",
          str "earned", str "granted",
          str "bestowed"].any (fun v => containsSub v fl) &&
         [str "award", str "prize", str "honor", str "honour", str "medal",
          str "recognition",
          str "distinction"].any (fun n => containsSub n fl) &&
         decide (6 ≤ wc) &&
         !containsSub (str "...") fact && !containsSub (str "..") fact &&
         decide (shortWordRatio words ≤ mkRat 1 2) then true
      else
        let has_verb := resumeVerbs.any (fun v => containsSub v fl)
        let has_resume_pattern :=
          patSearch prepCapPat fact || patSearch durationPat fl ||
          patSearch degreePat fl || patSearch academicPat fl ||
          urlSchemeSearch fl
        if !(has_verb || has_resume_pattern) && decide (wc < 5) then false
        else if containsSub (str "...") fact || containsSub (str "..") fact then
          false
        else if decide (wc < 6) && patMatch fragmentPat fl 0 then false
        else if decide (mkRat 1 2 < shortWordRatio words) then false
        else has_verb || has_resume_pattern

/-- A raw candidate fact as handed to the admission loop of
`extract_candidate_facts` (LLM output merged with deterministic link
facts); absent dict keys are `none`. -/
structure RawFact where
  fact : Option Str := none
  evidence : Option Str := none
  confidence : Option ℚ := none
  category : Option Str := none

/-- An accepted fact as assembled by the admission loop (the bookkeeping
fields `_original_index` / `_original_evidence` included). -/
structure AcceptedFact where
  fact : Str
  category : Str
  evidence : Str
  confidence : ℚ
  original_index : Nat
  original_evidence : Str

/-- A rejected candidate with its itemized rejection reasons (of the raw
dict copied into the rejected record, the model keeps the fields the
claims mention). -/
structure RejectedFact where
  fact : Str
  rejection_reasons : List Str
  original_index : Nat
  original_evidence : Str

/-- Accumulator of the admission loop: the `seen_facts` set (as a list of
lowered fact texts) and the accepted/rejected outputs in order. -/
structure AdmState where
  seen : List Str
  accepted : List AcceptedFact
  rejected : List RejectedFact

/-- The valid category enum of the admission loop. -/
def validCategories : List Str :=
  [str "education", str "work", str "impact", str "skills",
   str "projects", str "awards", str "links", str "location", str "other"]

/-- Stripped `fact` field of a raw candidate
(`(fact_data.get("fact") or "").strip()`). -/
def admFactText0 (raw : RawFact) : Str := pyStrip (raw.fact.getD [])

/-- Stripped original `evidence` field
(`fact_data.get("evidence", "").strip()`). -/
def admOrigEvidence (raw : RawFact) : Str := pyStrip (raw.evidence.getD [])

/-- The evidence checked by the admission loop: the original evidence if
nonempty, otherwise the fact text (fallback of line 535). -/
def admEvidence (raw : RawFact) : Str :=
  if (admOrigEvidence raw).isEmpty then admFactText0 raw
  else admOrigEvidence raw

/-- The candidate's fact text after the award subject normalization of
lines 541-544 (`"I " + fact` for award facts starting with `"won "`). -/
def admFactText (raw : RawFact) : Str :=
  if pyLower (raw.category.getD (str "other")) == str "awards" &&
     prefixOf (str "won ") (pyLower (admFactText0 raw)) then
    str "I " ++ admFactText0 raw
  else admFactText0 raw

/-- The itemized rejection reasons of lines 574-597, in source order:
low confidence, short fact text, evidence not a case-insensitive
substring of the combined source text, incomplete fact, duplicate. -/
def admReasons (combined : Str) (seen : List Str) (raw : RawFact) :
    List Str :=
  let confidence := raw.confidence.getD (mkRat 1 2)
  let evidence := admEvidence raw
  let fact_text := admFactText raw
  (if decide (confidence < mkRat 50 100) then
    [str "confidence_below_0.50"] else []) ++
  (if decide (fact_text.length < 10) then [str "fact_too_short"] else []) ++
  (if !evidence.isEmpty &&
      !containsSub (pyLower evidence) (pyLower combined) then
    [str "evidence_not_substring_match"] else []) ++
  (if !is_complete_fact fact_text (raw.category.getD (str "other")) then
    [str "is_complete_fact_check_failed"] else []) ++
  (if seen.contains (pyLower fact_text) then
    [str "duplicate_fact"] else [])

/-- The accepted record of lines 611-640: confidence clamped to 0.95,
evidence longer than 160 characters truncated to its first 157 characters
plus `"..."`, category normalized to the enum. -/
def admAccepted (raw : RawFact) (idx : Nat) : AcceptedFact :=
  let confidence := raw.confidence.getD (mkRat 1 2)
  let evidence := admEvidence raw
  let conf2 := if decide (mkRat 95 100 < confidence) then mkRat 95 100
    else confidence
  let ev2 := if decide (160 < evidence.length) then
      evidence.take 157 ++ str "..."
    else evidence
  let cat2 := if validCategories.contains (raw.category.getD (str "other")) then
      raw.category.getD (str "other")
    else str "other"
  ⟨admFactText raw, cat2, ev2, conf2, idx, admOrigEvidence raw⟩

/-- One iteration of the validate-and-filter loop of
`profile_extractor.py::extract_candidate_facts` (lines 527-644): with any
rejection reason the candidate goes to `rejected` with its reasons,
otherwise the accepted record is appended and the fact text remembered
for duplicate detection. -/
def admitStep (combined : Str) (st : AdmState) (idx : Nat) (raw : RawFact) :
    AdmState :=
  let reasons := admReasons combined st.seen raw
  if !reasons.isEmpty then
    { st with rejected := st.rejected ++
        [⟨admFactText raw, reasons, idx, admOrigEvidence raw⟩] }
  else
    { seen := st.seen ++ [pyLower (admFactText raw)]
      accepted := st.accepted ++ [admAccepted raw idx]
      rejected := st.rejected }

/-- The whole validate-and-filter loop over the merged raw candidates. -/
def validate_and_filter (raws : List RawFact) (combined : Str) : AdmState :=
  raws.enum.foldl (fun st p => admitStep combined st p.1 p.2) ⟨[], [], []⟩

end PE

example : PE.is_complete_fact (str "Worked at Google for four years")
    (str "work") = true := by decide
example : PE.is_complete_fact (str "Azure") (str "skills") = false := by decide
example : (detect_high_stakes_enforcement_violation
    (str "I published a paper at NeurIPS 2025")
    [str "Published a research paper at NeurIPS 2025."]
    [⟨str "Published a research paper at NeurIPS 2025.",
      str "Has reported research work related to NeurIPS; verification link not provided.",
      str "unverified_high_stakes", str "impact"⟩] none).1 = true := by decide

lemma prefixOf_append (n h t : Str) (hp : prefixOf n h = true) :
    prefixOf n (h ++ t) = true := by
  induction n generalizing h with
  | nil => rfl
  | cons a n ih =>
      cases h with
      | nil => simp [prefixOf] at hp
      | cons b h =>
          simp only [prefixOf, Bool.and_eq_true] at hp ⊢
          exact ⟨hp.1, ih h hp.2⟩

lemma containsSub_nil_left (h : Str) : containsSub [] h = true := by
  induction h with
  | nil => rfl
  | cons c t ih => simp [containsSub, prefixOf, ih]

lemma containsSub_append_left (n h t : Str) (hc : containsSub n h = true) :
    containsSub n (h ++ t) = true := by
  induction h with
  | nil =>
      simp only [containsSub, List.isEmpty_iff] at hc
      subst hc
      simpa using containsSub_nil_left t
  | cons c h ih =>
      simp only [containsSub, Bool.or_eq_true] at hc ⊢
      rcases hc with hc | hc
      · exact Or.inl (prefixOf_append _ _ _ hc)
      · exact Or.inr (ih hc)

/-- Claim C8: `within_word_limit` is false on the empty text whatever the
limit is, and on nonempty text it is true exactly when the
whitespace-split word count is at most `max_words`; in particular a text
of exactly `max_words` words passes and a text of `max_words + 1` words
fails. Both module copies (`validation_engine.py` and `checks.py`) agree. -/
theorem claim_C8_within_word_limit (t : Str) (n : Nat) :
    VE.within_word_limit [] n = false ∧
    Checks.within_word_limit [] n = false ∧
    VE.within_word_limit t n = Checks.within_word_limit t n ∧
    (t ≠ [] → (VE.within_word_limit t n = true ↔ (pySplit t).length ≤ n)) ∧
    (t ≠ [] → (pySplit t).length = n → VE.within_word_limit t n = true) ∧
    (t ≠ [] → (pySplit t).length = n + 1 →
      VE.within_word_limit t n = false) := by
  have hb : ∀ (u : Str), u ≠ [] → u.isEmpty = false := by
    intro u hu
    cases u with
    | nil => exact absurd rfl hu
    | cons c v => rfl
  refine ⟨rfl, rfl, rfl, ?_, ?_, ?_⟩
  · intro ht
    simp [VE.within_word_limit, hb t ht]
  · intro ht hc
    simp [VE.within_word_limit, hb t ht, hc]
  · intro ht hc
    simp [VE.within_word_limit, hb t ht, hc]

/-- Witness for C8 at concrete inputs: a two-word text passes the limit 2
and fails the limit 1; the empty text fails. -/
theorem claim_C8_witness :
    VE.within_word_limit (str "a b") 2 = true ∧
    VE.within_word_limit (str "a b") 1 = false ∧
    VE.within_word_limit [] 5 = false := by
  refine ⟨(claim_C8_within_word_limit (str "a b") 2).2.2.2.2.1
      (by decide) (by decide),
    (claim_C8_within_word_limit (str "a b") 1).2.2.2.2.2
      (by decide) (by decide),
    (claim_C8_within_word_limit [] 5).1⟩

/-- Claim C3 counterexample: as stated, the claim is false — on the message
`"Would you be open to a quick call?"` with requirement `request_chat`,
the function actually named `must_include_check` (validation_engine.py)
reports the requirement MISSING in relaxed mode (its `contains_chat_ask`
keyword set has no `call`), not satisfied. -/
theorem claim_C3_counterexample :
    VE.must_include_check (str "Would you be open to a quick call?")
      [str "request_chat"] false none none =
      (false, [str "request_chat"]) := by decide

/-- Claim C3 amended: the stated behaviour holds of `must_include_all`
(checks.py): `request_chat` is satisfied by `call` in relaxed mode and
requires the literal substring `chat` in strict mode; whereas
`must_include_check` (validation_engine.py) reports the requirement
missing in BOTH modes, since `contains_chat_ask` accepts only
`{chat, connect, schedule, discuss, 15-minute}`. -/
theorem claim_C3_amended :
    Checks.must_include_all (str "Would you be open to a quick call?")
      [str "request_chat"] false = (true, []) ∧
    Checks.must_include_all (str "Would you be open to a quick call?")
      [str "request_chat"] true = (false, [str "request_chat"]) ∧
    VE.must_include_check (str "Would you be open to a quick call?")
      [str "request_chat"] false none none = (false, [str "request_chat"]) ∧
    VE.must_include_check (str "Would you be open to a quick call?")
      [str "request_chat"] true none none = (false, [str "request_chat"]) := by
  decide

/-- Claim C6: on `"I worked at Google for 2 years"` with allowed facts
`["MS in Computer Science"]`, both fabrication detectors report no
fabrication when the target company is Google (target always exempt), and
flag an employer fabrication naming Google when the target company is
Apple. -/
theorem claim_C6_target_company_exempt :
    Checks.detects_fabrication (str "I worked at Google for 2 years")
      [str "MS in Computer Science"] (str "Google") (str "") (str "")
      (str "") = (true, []) ∧
    Checks.detects_fabrication (str "I worked at Google for 2 years")
      [str "MS in Computer Science"] (str "Apple") (str "") (str "")
      (str "") = (false, [str "New employer not allowed: Google"]) ∧
    VE.detects_fabrication (str "I worked at Google for 2 years")
      [str "MS in Computer Science"] (str "Google") (str "") = (true, []) ∧
    VE.detects_fabrication (str "I worked at Google for 2 years")
      [str "MS in Computer Science"] (str "Apple") (str "") =
      (false, [str "Fabricated employer: Google"]) := by decide

/-- A run record with the given confidence and overall pass flag (the
other fields are irrelevant to the overconfidence counter). -/
def mkRun (c : ℚ) (p : Bool) : RunRecord :=
  ⟨1, [], c, 0, false, false, false, false, false, p, [], []⟩

/-- Claim C7: a run counts toward the overconfidence counter of
`evaluate_scenario` exactly when its confidence is at least 0.75 AND its
overall pass flag is false; concretely, confidence 0.8 with
`overall_pass = false` counts, 0.8 with `overall_pass = true` does not,
and 0.74 with `overall_pass = false` does not (the threshold is a
non-strict `>= 0.75`). -/
theorem claim_C7_overconfidence_threshold (r : RunRecord)
    (rs : List RunRecord) :
    overconfident_count (r :: rs) =
      (if mkRat 3 4 ≤ r.confidence ∧ r.overall_pass = false then 1 else 0) +
        overconfident_count rs ∧
    overconfident_count [mkRun (mkRat 8 10) false] = 1 ∧
    overconfident_count [mkRun (mkRat 8 10) true] = 0 ∧
    overconfident_count [mkRun (mkRat 74 100) false] = 0 := by
  refine ⟨?_, by decide, by decide, by decide⟩
  by_cases hc : mkRat 3 4 ≤ r.confidence <;>
    by_cases hp : r.overall_pass <;>
      simp [overconfident_count, List.filter, hc, hp, Nat.add_comm]

/-- Claim C2 (code bug): the result dict of `run_checks` has no
`adds_new_facts` key (it has `fabrication_detected` instead), so the
success path of `run.py::generate_message`, which reads
`check_results["adds_new_facts"]`, raises `KeyError` on every
successfully generated message and the run is recorded through the
exception row (empty message, confidence 0, `adds_new_facts` forced
`True`, notes `Error: 'adds_new_facts'`). -/
theorem claim_C2_run_checks_adds_new_facts (text : Str) (max_words : Nat)
    (must_include allowed_facts : List Str) (tone : Str) (strict : Bool)
    (company target_role recipient_type channel : Str) (p : PromptData)
    (run_idx : Nat) (msg : Str) :
    pyLookup (Checks.run_checks text max_words must_include allowed_facts
      tone strict company target_role recipient_type channel)
      (str "adds_new_facts") = none ∧
    (∃ v, pyLookup (Checks.run_checks text max_words must_include
      allowed_facts tone strict company target_role recipient_type channel)
      (str "fabrication_detected") = some v) ∧
    generate_message (Except.ok msg) p run_idx =
      runPyErrorRow p run_idx (quoted (str "adds_new_facts")) := by
  exact ⟨rfl, ⟨_, rfl⟩, rfl⟩

lemma enfStep_counts (mdl : Metadata) (st : EnfState) (f : PyFact) :
    (enfStep mdl st f).gen.length = st.gen.length + 1 ∧
    (enfStep mdl st f).stats.excluded_count = st.stats.excluded_count ∧
    (enfStep mdl st f).stats.total_facts = st.stats.total_facts := by
  unfold enfStep
  cases f <;> dsimp only <;> split <;> (try split) <;> simp

lemma enfFold_counts (mdl : Metadata) (l : List PyFact) : ∀ st : EnfState,
    ((l.foldl (enfStep mdl) st).gen.length = st.gen.length + l.length) ∧
    ((l.foldl (enfStep mdl) st).stats.excluded_count =
      st.stats.excluded_count) ∧
    ((l.foldl (enfStep mdl) st).stats.total_facts = st.stats.total_facts) := by
  induction l with
  | nil => intro st; simp
  | cons f l ih =>
      intro st
      have hs := enfStep_counts mdl st f
      have hl := ih (enfStep mdl st f)
      refine ⟨?_, ?_, ?_⟩
      · simp only [List.foldl_cons, hl.1, hs.1, List.length_cons]
        omega
      · simp only [List.foldl_cons, hl.2.1, hs.2.1]
      · simp only [List.foldl_cons, hl.2.2, hs.2.2]

/-- Claim C9: the enforcement preprocessing never drops a fact — the
generated fact list has exactly one entry per approved fact and the
excluded counter is always 0 — and with enforcement disabled, or with no
metadata supplied (`None` or the empty dict), the result is the exact
pass-through: facts unchanged, empty conversion log, all stats counters
zero except the total. -/
theorem claim_C9_preprocess_never_drops (facts : List PyFact)
    (md : Option Metadata) (enf : Bool) :
    (preprocess_facts_for_generation facts md enf).facts_for_generation.length
      = facts.length ∧
    (preprocess_facts_for_generation facts md enf).stats.excluded_count = 0 ∧
    (preprocess_facts_for_generation facts md enf).stats.total_facts
      = facts.length ∧
    ((enf = false ∨ md = none ∨ md = some []) →
      preprocess_facts_for_generation facts md enf =
        ⟨facts, facts, [], zeroStats facts.length⟩) := by
  unfold preprocess_facts_for_generation
  cases enf with
  | false => exact ⟨rfl, rfl, rfl, fun _ => rfl⟩
  | true =>
      cases md with
      | none => exact ⟨rfl, rfl, rfl, fun _ => rfl⟩
      | some mdl =>
          cases mdl with
          | nil => exact ⟨rfl, rfl, rfl, fun _ => rfl⟩
          | cons e mdl =>
              have h := enfFold_counts (e :: mdl) facts
                ⟨[], [], [], zeroStats facts.length⟩
              refine ⟨?_, ?_, ?_, ?_⟩
              · simpa [zeroStats] using h.1
              · simpa [zeroStats] using h.2.1
              · simpa [zeroStats] using h.2.2
              · intro hd
                rcases hd with hd | hd | hd <;> simp at hd

/-- Witness for C9: with enforcement enabled but no metadata, a singleton
fact list passes through unchanged. -/
theorem claim_C9_witness :
    preprocess_facts_for_generation [PyFact.s (str "Worked at Google")]
      none true =
      ⟨[PyFact.s (str "Worked at Google")],
       [PyFact.s (str "Worked at Google")], [], zeroStats 1⟩ :=
  (claim_C9_preprocess_never_drops [PyFact.s (str "Worked at Google")]
    none true).2.2.2 (Or.inr (Or.inl rfl))

/-- Claim C4 (code bug): the fail-closed recording the claim (and the
spec) describe is what the dead branches of `evaluate_scenario` (lines
212-242) would do, but the code has a slip that makes them unreachable:
`generate_message_with_word_limit` evaluates the free name
`allowed_facts` in its `user_prompt` f-string (line 126, before the
`try`) and `evaluate_scenario` evaluates the same free name as the
argument of the call at line 209, so for EVERY scenario, oracle and run
count the very first iteration raises `NameError`, nothing is ever
recorded, and the loop aborts instead of executing the remaining runs. -/
theorem claim_C4_name_error_aborts (runs run_idx max_words max_attempts : Nat)
    (api : Nat → Nat → Except Str Str) (process : Str → Str × Nat × ℚ)
    (checksFn : Str → CheckOutcome) :
    generate_message_with_word_limit (api run_idx) process max_words
      max_attempts =
      Except.error (str "name " ++ quoted (str "allowed_facts") ++
        str " is not defined") ∧
    evaluateRunStep api process max_words max_attempts checksFn run_idx =
      Except.error (str "name " ++ quoted (str "allowed_facts") ++
        str " is not defined") ∧
    evaluate_scenario_runs (runs + 1) api process max_words max_attempts
      checksFn =
      Except.error (str "name " ++ quoted (str "allowed_facts") ++
        str " is not defined") :=
  ⟨rfl, rfl, rfl⟩

/-- Claim C10: scoring a message against an empty approved-facts list (or
scoring an empty message) makes both fabrication detectors return
`(False, [])`, which `run_all_checks` / `run_checks` invert into
`fabrication_detected = true` and hence `overall_pass = false`, while the
fabrications list stays empty — the failure reasons carry no fabrication
entry — and `detects_unsupported_claims` instead returns `(True, [])`,
so no unsupported-claims flag is raised. -/
theorem claim_C10_empty_facts_fail_closed
    (text : Str) (facts : List Str) (max_words : Nat) (mi : List Str)
    (strict : Bool) (company role tone rt ch : Str) (lf : Option LinkFacts)
    (h : text = [] ∨ facts = []) :
    VE.detects_fabrication text facts company role = (false, []) ∧
    VE.detects_unsupported_claims text facts strict = (true, []) ∧
    Checks.detects_fabrication text facts company role rt ch = (false, []) ∧
    (VE.run_all_checks text max_words mi facts strict company role
      lf).fabrication_detected = true ∧
    (VE.run_all_checks text max_words mi facts strict company role
      lf).unsupported_claims_detected = false ∧
    (VE.run_all_checks text max_words mi facts strict company role
      lf).overall_pass = false ∧
    (∃ wl missing tone_issues,
      (VE.run_all_checks text max_words mi facts strict company role
        lf).failure_reasons =
        VE.buildFailureReasons wl missing tone_issues [] []) ∧
    pyLookup (Checks.run_checks text max_words mi facts tone strict company
      role rt ch) (str "fabrication_detected") = some (PyVal.b true) ∧
    pyLookup (Checks.run_checks text max_words mi facts tone strict company
      role rt ch) (str "overall_pass") = some (PyVal.b false) := by
  have hemp : (text.isEmpty || facts.isEmpty) = true := by
    rcases h with h | h <;> subst h <;> simp
  have hdf : VE.detects_fabrication text facts company role = (false, []) := by
    unfold VE.detects_fabrication
    rw [hemp]
    rfl
  have hdu : VE.detects_unsupported_claims text facts strict = (true, []) := by
    unfold VE.detects_unsupported_claims
    rw [hemp]
    rfl
  have hcf : Checks.detects_fabrication text facts company role rt ch =
      (false, []) := by
    unfold Checks.detects_fabrication
    rw [hemp]
    rfl
  refine ⟨hdf, hdu, hcf, ?_, ?_, ?_, ?_, ?_, ?_⟩
  · show (!(VE.detects_fabrication text facts company role).1) = true
    rw [hdf]
    rfl
  · show (!(VE.detects_unsupported_claims text facts strict).1) = false
    rw [hdu]
    rfl
  · show (VE.within_word_limit text max_words &&
      (VE.must_include_check text mi strict (some facts) lf).1 &&
      (VE.tone_professional text strict).1 &&
      (VE.detects_fabrication text facts company role).1 &&
      (VE.detects_unsupported_claims text facts strict).1) = false
    rw [hdf, hdu]
    simp
  · have hfr : (VE.run_all_checks text max_words mi facts strict company
        role lf).failure_reasons =
        VE.buildFailureReasons
          (if !(VE.within_word_limit text max_words) then
            [str "Word limit exceeded: " ++
              natToStr (if text.isEmpty then 0 else (pySplit text).length) ++
              str " > " ++ natToStr max_words] else [])
          (if !(VE.must_include_check text mi strict (some facts) lf).1 then
            (VE.must_include_check text mi strict (some facts) lf).2.map
              (fun item => str "Missing: " ++ item) else [])
          (if !(VE.tone_professional text strict).1 then
            (VE.tone_professional text strict).2 else [])
          (if !(VE.detects_fabrication text facts company role).1 then
            (VE.detects_fabrication text facts company role).2 else [])
          (if !(VE.detects_unsupported_claims text facts strict).1 then
            (VE.detects_unsupported_claims text facts strict).2 else []) :=
      rfl
    rw [hdf, hdu] at hfr
    simp only [Prod.fst, Prod.snd, Bool.not_false, Bool.not_true,
      if_true, if_false, ite_true, ite_false] at hfr
    exact ⟨_, _, _, hfr⟩
  · have hv : pyLookup (Checks.run_checks text max_words mi facts tone
        strict company role rt ch) (str "fabrication_detected") =
        some (PyVal.b
          (!(Checks.detects_fabrication text facts company role rt ch).1)) :=
      rfl
    rw [hv, hcf]
    rfl
  · have hv : pyLookup (Checks.run_checks text max_words mi facts tone
        strict company role rt ch) (str "overall_pass") =
        some (PyVal.b (Checks.within_word_limit text max_words &&
          (Checks.must_include_all text mi strict).1 &&
          (Checks.tone_professional text).1 &&
          (Checks.detects_fabrication text facts company role rt ch).1)) :=
      rfl
    rw [hv, hcf]
    simp

/-- Witness for C10: a concrete nonempty message scored with an empty
fact list is flagged for fabrication with an empty fabrications list. -/
theorem claim_C10_witness :
    VE.detects_fabrication (str "Hello there") [] (str "Acme") (str "") =
      (false, []) ∧
    (VE.run_all_checks (str "Hello there") 150 [] [] false (str "Acme")
      (str "") none).fabrication_detected = true ∧
    (VE.run_all_checks (str "Hello there") 150 [] [] false (str "Acme")
      (str "") none).overall_pass = false :=
  let h := claim_C10_empty_facts_fail_closed (str "Hello there") [] 150 []
    false (str "Acme") (str "") (str "") (str "") (str "") none
    (Or.inr rfl)
  ⟨h.1, h.2.2.2.1, h.2.2.2.2.2.1⟩

lemma containsSub_lower_extend (n pre rest : Str)
    (h : containsSub n (pyLower pre) = true) :
    containsSub n (pyLower (pre ++ rest)) = true := by
  unfold pyLower at h ⊢
  rw [List.map_append]
  exact containsSub_append_left _ _ _ h

lemma convert_contains_reported (fact category : Str) :
    containsSub (str "reported")
      (pyLower (convert_to_cautious_phrasing fact category)) = true := by
  unfold convert_to_cautious_phrasing
  dsimp only
  split
  · split
    · split
      · decide
      · split
        · decide
        · split
          · decide
          · decide
    · decide
  · split
    · decide
    · split
      · split
        · exact containsSub_lower_extend _ _ _
            (containsSub_lower_extend _ _ _ (by decide))
        · decide
      · split
        · decide
        · exact containsSub_lower_extend _ _ _
            (containsSub_lower_extend _ _ _ (by decide))

lemma genericViolation_nil (ml : Str) (conv : ConvRec)
    (h : containsSub (str "reported") ml = true) :
    genericViolation ml conv = [] := by
  unfold genericViolation
  simp [h]

lemma eduViolation_nil (ml : Str) (conv : ConvRec)
    (h : conv.category ≠ str "education") :
    eduViolation ml conv = [] := by
  unfold eduViolation
  simp [beq_iff_eq, h]

lemma pubsViolation_nil_of_searches (ml : Str) (conv : ConvRec)
    (h1 : patSearch pubDefinitePat1 ml = false)
    (h2 : patSearch pubDefinitePat2 ml = false) :
    pubsViolation ml conv = [] := by
  unfold pubsViolation
  simp [h1, h2]

lemma pubsViolation_nil_of_category (ml : Str) (conv : ConvRec)
    (h : ([str "impact", str "publications",
      str "research"].contains conv.category) = false) :
    pubsViolation ml conv = [] := by
  unfold pubsViolation
  simp only [h]
  rfl

lemma awardsViolation_nil_of_search (ml : Str) (conv : ConvRec)
    (h : patSearch awardDefinitePat ml = false) :
    awardsViolation ml conv = [] := by
  unfold awardsViolation
  simp [h]

lemma awardsViolation_nil_of_category (ml : Str) (conv : ConvRec)
    (h : (conv.category == str "awards") = false) :
    awardsViolation ml conv = [] := by
  unfold awardsViolation
  simp only [h]
  rfl

lemma convert_branch1_searches (fact category : Str)
    (hc : ([str "impact", str "publications", str "research"].contains
      (pyLower category)) = true) :
    patSearch pubDefinitePat1
      (pyLower (convert_to_cautious_phrasing fact category)) = false ∧
    patSearch pubDefinitePat2
      (pyLower (convert_to_cautious_phrasing fact category)) = false := by
  unfold convert_to_cautious_phrasing
  dsimp only
  rw [hc]
  simp only [Bool.true_or, if_true]
  split
  · split
    · exact ⟨by decide, by decide⟩
    · split
      · exact ⟨by decide, by decide⟩
      · split
        · exact ⟨by decide, by decide⟩
        · exact ⟨by decide, by decide⟩
  · exact ⟨by decide, by decide⟩

lemma convert_awards_search (fact : Str) :
    patSearch awardDefinitePat
      (pyLower (convert_to_cautious_phrasing fact (str "awards"))) = false := by
  unfold convert_to_cautious_phrasing
  dsimp only
  rw [show ([str "impact", str "publications", str "research"].contains
    (pyLower (str "awards"))) = false from by decide]
  simp only [Bool.false_or]
  split
  · split
    · split
      · decide
      · split
        · decide
        · split
          · decide
          · decide
    · decide
  · rw [show (pyLower (str "awards") == str "awards") = true from by decide]
    simp only [Bool.true_or, if_true]
    decide

lemma detectViolationsFor_cautious (fact category : Str)
    (hcat : category ≠ str "education") :
    detectViolationsFor (pyLower (convert_to_cautious_phrasing fact category))
      ⟨fact, convert_to_cautious_phrasing fact category,
        str "unverified_high_stakes", category⟩ = [] := by
  have hgen : genericViolation
      (pyLower (convert_to_cautious_phrasing fact category))
      ⟨fact, convert_to_cautious_phrasing fact category,
        str "unverified_high_stakes", category⟩ = [] :=
    genericViolation_nil _ _ (convert_contains_reported fact category)
  have hedu : eduViolation
      (pyLower (convert_to_cautious_phrasing fact category))
      ⟨fact, convert_to_cautious_phrasing fact category,
        str "unverified_high_stakes", category⟩ = [] :=
    eduViolation_nil _ _ hcat
  unfold detectViolationsFor
  rw [hgen, hedu]
  by_cases hpub : ([str "impact", str "publications",
      str "research"].contains category) = true
  · have hc3 : category = str "impact" ∨ category = str "publications" ∨
        category = str "research" := by simpa using hpub
    have haw : (category == str "awards") = false := by
      rcases hc3 with h | h | h <;> subst h <;> decide
    have hs : patSearch pubDefinitePat1
        (pyLower (convert_to_cautious_phrasing fact category)) = false ∧
        patSearch pubDefinitePat2
        (pyLower (convert_to_cautious_phrasing fact category)) = false := by
      rcases hc3 with h | h | h <;> subst h <;>
        exact convert_branch1_searches _ _ (by decide)
    rw [awardsViolation_nil_of_category _ _ haw,
      pubsViolation_nil_of_searches _ _ hs.1 hs.2]
    rfl
  · simp only [Bool.not_eq_true] at hpub
    rw [pubsViolation_nil_of_category _ _ hpub]
    by_cases haw : (category == str "awards") = true
    · have hcat2 : category = str "awards" := by simpa using haw
      subst hcat2
      rw [awardsViolation_nil_of_search _ _ (convert_awards_search fact)]
      rfl
    · simp only [Bool.not_eq_true] at haw
      rw [awardsViolation_nil_of_category _ _ haw]
      rfl

/-- Claim C5 counterexample: the round-trip claim fails for an unverified
high-stakes EDUCATION fact. The enforcement preprocessing of the dict
fact `PhD in Computer Science from MIT` (category `education`, unverified)
converts it to the cautious phrasing, yet a message reproducing that
cautious text verbatim IS flagged as a violation — the education branch
matches `phd\s+(from|at|in)` inside the cautious text and ignores the
cautious markers. -/
theorem claim_C5_counterexample :
    (preprocess_facts_for_generation
      [PyFact.d (some (str "PhD in Computer Science from MIT")) none
        (some (str "education")) none none none]
      (some [(str "PhD in Computer Science from MIT",
        ⟨some (str "unverified"), some []⟩)]) true).conversion_log =
      [⟨str "PhD in Computer Science from MIT",
        str "Has reported PhD in Computer Science from MIT; verification link not provided.",
        str "unverified_high_stakes", str "education"⟩] ∧
    detect_high_stakes_enforcement_violation
      (str "Has reported PhD in Computer Science from MIT; verification link not provided.")
      [str "PhD in Computer Science from MIT"]
      [⟨str "PhD in Computer Science from MIT",
        str "Has reported PhD in Computer Science from MIT; verification link not provided.",
        str "unverified_high_stakes", str "education"⟩] none =
      (true, [str "Definitive education claim: " ++
        quoted (str "PhD in Computer Science from MIT")]) := by
  exact ⟨by decide, by decide⟩

/-- Claim C5 amended: the cautious round trip is violation-free for every
unverified high-stakes fact whose conversion category is NOT `education`
(for education-category conversions the definitive-education pattern can
fire on the cautious text itself, see the counterexample); and a message
asserting the fact definitively (`"I published a paper at NeurIPS 2025"`
for a converted publication fact) is flagged. -/
theorem claim_C5_cautious_round_trip_amended :
    (∀ fact category : Str, category ≠ str "education" →
      detect_high_stakes_enforcement_violation
        (convert_to_cautious_phrasing fact category) [fact]
        [⟨fact, convert_to_cautious_phrasing fact category,
          str "unverified_high_stakes", category⟩] none = (false, [])) ∧
    (detect_high_stakes_enforcement_violation
      (str "I published a paper at NeurIPS 2025")
      [str "Published a research paper at NeurIPS 2025."]
      [⟨str "Published a research paper at NeurIPS 2025.",
        str "Has reported research work related to NeurIPS; verification link not provided.",
        str "unverified_high_stakes", str "impact"⟩] none).1 = true := by
  constructor
  · intro fact category hcat
    unfold detect_high_stakes_enforcement_violation
    simp [detectViolationsFor_cautious fact category hcat]
  · decide

/-- Witness for C5 amended: a publication-category fact, converted and
echoed verbatim, is not flagged. -/
theorem claim_C5_witness :
    detect_high_stakes_enforcement_violation
      (convert_to_cautious_phrasing
        (str "Published a research paper at NeurIPS 2025.") (str "impact"))
      [str "Published a research paper at NeurIPS 2025."]
      [⟨str "Published a research paper at NeurIPS 2025.",
        convert_to_cautious_phrasing
          (str "Published a research paper at NeurIPS 2025.") (str "impact"),
        str "unverified_high_stakes", str "impact"⟩] none = (false, []) :=
  claim_C5_cautious_round_trip_amended.1
    (str "Published a research paper at NeurIPS 2025.") (str "impact")
    (by decide)

/-- The evidence guarantee that actually holds for an accepted fact: the
stored evidence is a case-insensitive substring of the combined text, or
it is the 157-character-plus-ellipsis truncation (of length exactly 160)
of an over-long evidence string that was such a substring. -/
def evidenceOk (combined : Str) (a : PE.AcceptedFact) : Prop :=
  containsSub (pyLower a.evidence) (pyLower combined) = true ∨
  (a.evidence.length = 160 ∧ ∃ e : Str,
    containsSub (pyLower e) (pyLower combined) = true ∧ 160 < e.length ∧
    a.evidence = e.take 157 ++ str "...")

lemma admReasons_nil_contains (combined : Str) (seen : List Str)
    (raw : PE.RawFact) (h : PE.admReasons combined seen raw = []) :
    containsSub (pyLower (PE.admEvidence raw)) (pyLower combined) = true := by
  unfold PE.admReasons at h
  simp only [List.append_eq_nil] at h
  have h3 := h.1.1.2
  by_cases hb : ((!(PE.admEvidence raw).isEmpty) &&
      !containsSub (pyLower (PE.admEvidence raw)) (pyLower combined)) = true
  · rw [if_pos hb] at h3
    simp at h3
  · cases hA : (PE.admEvidence raw).isEmpty with
    | true =>
        rw [List.isEmpty_iff.mp hA]
        exact containsSub_nil_left _
    | false =>
        cases hC : containsSub (pyLower (PE.admEvidence raw))
            (pyLower combined) with
        | true => rfl
        | false => exact absurd (by rw [hA, hC]; rfl) hb

lemma admitStep_preserves_evidenceOk (combined : Str) (st : PE.AdmState)
    (idx : Nat) (raw : PE.RawFact)
    (h : ∀ a ∈ st.accepted, evidenceOk combined a) :
    ∀ a ∈ (PE.admitStep combined st idx raw).accepted, evidenceOk combined a := by
  intro a ha
  unfold PE.admitStep at ha
  dsimp only at ha
  cases hE : (PE.admReasons combined st.seen raw).isEmpty with
  | false =>
      rw [hE] at ha
      simp only [Bool.not_false, if_true, ite_true] at ha
      exact h a ha
  | true =>
      rw [hE] at ha
      simp only [Bool.not_true, if_false, ite_false] at ha
      rcases List.mem_append.mp ha with ha | ha
      · exact h a ha
      · have hone : a = PE.admAccepted raw idx := by simpa using ha
        subst hone
        have hreasons : PE.admReasons combined st.seen raw = [] :=
          List.isEmpty_iff.mp hE
        have hcont := admReasons_nil_contains combined st.seen raw hreasons
        unfold evidenceOk PE.admAccepted
        dsimp only
        split
        · rename_i hlen
          have hlen' : 160 < (PE.admEvidence raw).length :=
            of_decide_eq_true hlen
          right
          refine ⟨?_, PE.admEvidence raw, hcont, hlen', rfl⟩
          simp only [List.length_append, List.length_take]
          have : (str "...").length = 3 := by decide
          omega
        · left
          exact hcont

lemma validate_accepted_evidenceOk (raws : List PE.RawFact) (combined : Str) :
    ∀ a ∈ (PE.validate_and_filter raws combined).accepted,
      evidenceOk combined a := by
  unfold PE.validate_and_filter
  suffices hgen : ∀ (pairs : List (Nat × PE.RawFact)) (st : PE.AdmState),
      (∀ a ∈ st.accepted, evidenceOk combined a) →
      ∀ a ∈ (pairs.foldl
        (fun st p => PE.admitStep combined st p.1 p.2) st).accepted,
        evidenceOk combined a by
    refine hgen raws.enum ⟨[], [], []⟩ ?_
    intro a ha
    simp at ha
  intro pairs
  induction pairs with
  | nil => intro st hst; simpa using hst
  | cons p ps ih =>
      intro st hst
      exact ih _ (admitStep_preserves_evidenceOk combined st p.1 p.2 hst)

/-- Claim C1 amended: every fact admitted by the validate-and-filter step
of `extract_candidate_facts` had its checked evidence found
case-insensitively inside the combined source text — the stored evidence
still is such a substring whenever it was not truncated, but an accepted
fact whose evidence exceeded 160 characters stores the first 157
characters plus an ellipsis, which need not be a substring (see the
counterexample); and every candidate whose (nonempty) evidence is not
such a substring is rejected with reason `evidence_not_substring_match`. -/
theorem claim_C1_evidence_grounding_amended (raws : List PE.RawFact)
    (combined : Str) :
    (∀ a ∈ (PE.validate_and_filter raws combined).accepted,
      containsSub (pyLower a.evidence) (pyLower combined) = true ∨
      (a.evidence.length = 160 ∧ ∃ e : Str,
        containsSub (pyLower e) (pyLower combined) = true ∧ 160 < e.length ∧
        a.evidence = e.take 157 ++ str "...")) ∧
    (∀ (st : PE.AdmState) (idx : Nat) (raw : PE.RawFact),
      (PE.admEvidence raw).isEmpty = false →
      containsSub (pyLower (PE.admEvidence raw)) (pyLower combined) = false →
      str "evidence_not_substring_match" ∈
        PE.admReasons combined st.seen raw ∧
      PE.admitStep combined st idx raw =
        { st with rejected := st.rejected ++
            [⟨PE.admFactText raw, PE.admReasons combined st.seen raw, idx,
              PE.admOrigEvidence raw⟩] }) := by
  constructor
  · exact validate_accepted_evidenceOk raws combined
  · intro st idx raw hne hnc
    have hcond : ((!(PE.admEvidence raw).isEmpty) &&
        !containsSub (pyLower (PE.admEvidence raw)) (pyLower combined)) =
        true := by
      rw [hne, hnc]
      rfl
    have hmem : str "evidence_not_substring_match" ∈
        PE.admReasons combined st.seen raw := by
      unfold PE.admReasons
      dsimp only
      rw [if_pos hcond]
      simp
    have hnonempty : (PE.admReasons combined st.seen raw).isEmpty = false := by
      cases hx : PE.admReasons combined st.seen raw with
      | nil =>
          rw [hx] at hmem
          simp at hmem
      | cons r rs => rfl
    refine ⟨hmem, ?_⟩
    unfold PE.admitStep
    dsimp only
    rw [hnonempty]
    rfl

/-- The 161-character evidence string of the C1 counterexample. -/
def c1Evidence : Str :=
  str "Worked at Google for four years " ++ List.replicate 129 'x'

/-- The raw candidate of the C1 counterexample: a complete, confident
work fact whose evidence is the full 161-character combined text. -/
def c1Raw : PE.RawFact :=
  ⟨some (str "Worked at Google for four years"), some c1Evidence,
   some (mkRat 9 10), some (str "work")⟩

/-- Claim C1 counterexample: with the combined source text equal to the
161-character evidence string, the candidate passes every admission check
(its evidence IS a substring at admission time) and is accepted — but the
STORED evidence, truncated to 157 characters plus `"..."`, is NOT a
case-insensitive substring of the combined text, contradicting the claim
for facts whose evidence exceeded 160 characters. -/
theorem claim_C1_counterexample :
    c1Evidence.length = 161 ∧
    (PE.validate_and_filter [c1Raw] c1Evidence).accepted.length = 1 ∧
    (PE.validate_and_filter [c1Raw] c1Evidence).rejected.length = 0 ∧
    ((PE.validate_and_filter [c1Raw] c1Evidence).accepted.map
      (fun a => containsSub (pyLower a.evidence) (pyLower c1Evidence))) =
      [false] ∧
    ((PE.validate_and_filter [c1Raw] c1Evidence).accepted.map
      (fun a => a.evidence.length)) = [160] := by
  refine ⟨by decide, by decide, by decide, by decide, by decide⟩

/-- Witness for C1 amended: a candidate whose evidence is absent from the
combined text is rejected with `evidence_not_substring_match`, and the
accepted-side invariant holds for the counterexample input. -/
theorem claim_C1_witness :
    (str "evidence_not_substring_match" ∈
      PE.admReasons (str "some unrelated profile text") []
        ⟨some (str "Built the backend service"),
         some (str "a quote that is absent"), some (mkRat 9 10),
         some (str "work")⟩ ∧
    PE.admitStep (str "some unrelated profile text") ⟨[], [], []⟩ 0
        ⟨some (str "Built the backend service"),
         some (str "a quote that is absent"), some (mkRat 9 10),
         some (str "work")⟩ =
      ⟨[], [],
       [⟨PE.admFactText ⟨some (str "Built the backend service"),
           some (str "a quote that is absent"), some (mkRat 9 10),
           some (str "work")⟩,
         PE.admReasons (str "some unrelated profile text") []
           ⟨some (str "Built the backend service"),
            some (str "a quote that is absent"), some (mkRat 9 10),
            some (str "work")⟩, 0,
         PE.admOrigEvidence ⟨some (str "Built the backend service"),
           some (str "a quote that is absent"), some (mkRat 9 10),
           some (str "work")⟩⟩]⟩) ∧
    ∀ a ∈ (PE.validate_and_filter [c1Raw] c1Evidence).accepted,
      containsSub (pyLower a.evidence) (pyLower c1Evidence) = true ∨
      (a.evidence.length = 160 ∧ ∃ e : Str,
        containsSub (pyLower e) (pyLower c1Evidence) = true ∧
        160 < e.length ∧ a.evidence = e.take 157 ++ str "...") :=
  ⟨(claim_C1_evidence_grounding_amended [] (str "some unrelated profile text")).2
      ⟨[], [], []⟩ 0
      ⟨some (str "Built the backend service"),
       some (str "a quote that is absent"), some (mkRat 9 10),
       some (str "work")⟩ (by decide) (by decide),
   (claim_C1_evidence_grounding_amended [c1Raw] c1Evidence).1⟩
